import Mathlib

/-!
# cameraCapture.c : a shallow embedding

The program talks to a Video4Linux2 capture device through system calls
(`open`, `ioctl`, `mmap`, `select`, `munmap`, `close`).  The embedding makes the
device explicit: a `World` carries the program's three globals (`terminate`,
`bufferCount`, `frameBuffers`), the C library's `errno`, the list of responses the
(fake) device will still give, and the trace of the system calls issued so far.

Every system call consumes the next response.  A response carries the return
value, the `errno` it sets on failure, the fields the kernel writes back into the
argument structure, and the signal numbers for which `signalHandler` is invoked
while the call is in progress.  A function of the program is a function
`World → Option α × World`; the first component is `none` when the function did
not return, and the world reached so far is kept in either case.  A function
does not return when the responses ran out before it did (the observation was
cut there).

A process that is killed does not return either: when the program writes or reads
through the null pointer or past the end of the buffer table, or increments an
`int` counter that holds `INT_MAX` (undefined behaviour), the run stops there,
the first component is `none` and the field `fault` of the world says why.

Integers: the 32-bit unsigned fields of the device interface and `bufferCount`
hold their values modulo `2^32` (`u32`, `toU32`); the `int` loop counters are
naturals that never pass `INT_MAX`.  `calloc` returns the null pointer when the
world's `heapExhausted` is set.  Diagnostics written with `perror` / `fprintf`
are not part of the world.
-/

namespace CameraCapture

/-! ## Constants of the C library and of `linux/videodev2.h` -/

/-- `FALSE` of cameraCapture.c. -/
def FALSE : Int := 0

/-- `TRUE` of cameraCapture.c. -/
def TRUE : Int := 1

/-- `FORMAT_MJPEG` of cameraCapture.c. -/
def FORMAT_MJPEG : String := "mjpeg"

/-- `FORMAT_H264` of cameraCapture.c. -/
def FORMAT_H264 : String := "h264"

/-- The errno value of an interrupted system call (`errno.h`). -/
def EINTR : Int := 4

/-- The errno value of a non-blocking call that has nothing to deliver (`errno.h`). -/
def EAGAIN : Int := 11

/-- The errno value of an input/output error (`errno.h`). -/
def EIO : Int := 5

/-- The errno value of an invalid argument (`errno.h`). -/
def EINVAL : Int := 22

/-- The errno value of an exhausted address space (`errno.h`). -/
def ENOMEM : Int := 12

/-- The interrupt signal (`signal.h`). -/
def SIGINT : Int := 2

/-- The value `mmap` returns on failure, `(void *) -1`. -/
def MAP_FAILED : Int := -1

/-- `EXIT_SUCCESS` of `stdlib.h`. -/
def EXIT_SUCCESS : Int := 0

/-- `EXIT_FAILURE` of `stdlib.h`. -/
def EXIT_FAILURE : Int := 1

/-- `INT_MAX` of `limits.h`, the largest value of an `int`. -/
def INT_MAX : Nat := 2147483647

/-- The value a 32-bit unsigned field holds when it is given `x`. -/
def u32 (x : Nat) : Nat := x % 4294967296

/-- The value a 32-bit unsigned field holds when it is assigned the `int` `x`. -/
def toU32 (x : Int) : Nat := (x % 4294967296).toNat

/-- The two pixel formats the program selects (`linux/videodev2.h`). -/
inductive PixelFormat where
  | V4L2_PIX_FMT_H264
  | V4L2_PIX_FMT_MJPEG
  deriving DecidableEq, Repr

/-- The two field orders the program selects (`linux/videodev2.h`). -/
inductive FieldOrder where
  | V4L2_FIELD_NONE
  | V4L2_FIELD_INTERLACED
  deriving DecidableEq, Repr

/-! ## System calls, responses, the world -/

/-- The `ioctl` requests of the program, each with the fields of its argument
structure that the program sets (buffer type and memory kind are the same
constants everywhere and are left out). -/
inductive Request where
  | VIDIOC_QUERYCAP
  | VIDIOC_S_FMT (pixelformat : PixelFormat) (field : FieldOrder) (width height : Nat)
  | VIDIOC_REQBUFS (count : Nat)
  | VIDIOC_QUERYBUF (index : Nat)
  | VIDIOC_QBUF (index : Nat)
  | VIDIOC_DQBUF
  | VIDIOC_STREAMON
  | VIDIOC_STREAMOFF
  deriving DecidableEq, Repr

/-- The system calls of the program. -/
inductive Call where
  | openDev (path : String)
  | ioctl (fd : Int) (request : Request)
  | mmap (fd : Int) (length offset : Nat)
  | select (fd : Int)
  | munmap (data : Int) (length : Nat)
  | close (fd : Int)
  deriving DecidableEq, Repr

/-- One response of the device to one system call: the return value, the errno
set when the value is `-1`, the fields written back into the argument structure
(`count` for `VIDIOC_REQBUFS`, `index` for `VIDIOC_DQBUF`, `length` and `offset`
for `VIDIOC_QUERYBUF`), and the signal numbers `signalHandler` is invoked with
while the call is in progress. -/
structure Reply where
  ret : Int
  errno : Int
  count : Nat
  index : Nat
  length : Nat
  offset : Nat
  signals : List Int
  deriving DecidableEq, Repr

/-- One entry of the trace: the call issued and the response it got. -/
structure Event where
  call : Call
  reply : Reply
  deriving DecidableEq, Repr

/-- `struct frameBuffer` of cameraCapture.c. -/
structure frameBuffer where
  data : Int
  length : Nat
  deriving DecidableEq, Repr

/-- Why a process was killed, or left the behaviour the C language defines. -/
inductive Fault where
  | nullPointer
  | outOfBounds
  | signedOverflow
  deriving DecidableEq, Repr

/-- The state of the process and of its environment.  `frameBuffers` is the pointer
to the buffer table: `none` is the null pointer, `some table` a table of
`table.length` entries.  `heapExhausted` says whether `calloc` fails. -/
structure World where
  terminate : Int
  bufferCount : Nat
  frameBuffers : Option (List frameBuffer)
  errno : Int
  heapExhausted : Bool
  fault : Option Fault
  script : List Reply
  trace : List Event
  deriving DecidableEq, Repr

/-- The world at program start: `terminate = FALSE`, `bufferCount = 0`, `frameBuffers`
null, memory available, nothing issued yet, and the given responses ahead. -/
def World.start (script : List Reply) : World :=
  { terminate := FALSE, bufferCount := 0, frameBuffers := none, errno := 0,
    heapExhausted := false, fault := none, script := script, trace := [] }

/-! ## The program -/

/-- `signalHandler` of cameraCapture.c: `SIGINT` sets `terminate = TRUE`; any other
signal number only prints a message. -/
def signalHandler (signalNumber : Int) (w : World) : World :=
  if signalNumber = SIGINT then { w with terminate := TRUE } else w

/-- The handler `signalHandler` runs once for each of the signals, in order. -/
def deliver (signals : List Int) (w : World) : World :=
  signals.foldl (fun acc s => signalHandler s acc) w

/-- The world after call `c` has been answered by `r`: the call is appended to the
trace, `errno` is set when the call failed, and `signalHandler` has run for every
signal that arrived during the call. -/
def respond (c : Call) (r : Reply) (w : World) : World :=
  deliver r.signals
    { w with trace := w.trace ++ [{ call := c, reply := r }],
             errno := if r.ret = -1 then r.errno else w.errno }

/-- One system call: it takes the next response of the device, or is cut when
there is none left. -/
def syscall (c : Call) (w : World) : Option Reply × World :=
  match w.script with
  | [] => (none, w)
  | r :: rest => (some r, respond c r { w with script := rest })

/-- The `do … while (-1 == r && EINTR == errno)` loop of `xioctl`; `fuel` bounds the
number of rounds. -/
def xioctlLoop (fileDescriptor : Int) (request : Request) : Nat → World → Option Reply × World
  | 0, w => (none, w)
  | fuel + 1, w =>
    match syscall (Call.ioctl fileDescriptor request) w with
    | (none, w1) => (none, w1)
    | (some r, w1) =>
      if r.ret = -1 ∧ w1.errno = EINTR then xioctlLoop fileDescriptor request fuel w1
      else (some r, w1)

/-- `xioctl` of cameraCapture.c.  Every round consumes one response, so as many
rounds as there are responses left always suffice. -/
def xioctl (fileDescriptor : Int) (request : Request) (w : World) : Option Reply × World :=
  xioctlLoop fileDescriptor request w.script.length w

/-- The `while (!terminate)` loop of `captureFrames` and the `return 0` after it.
`readBuffer` is cleared before `VIDIOC_DQBUF`, so its 32-bit index is 0 unless the
dequeue succeeded and wrote one back. -/
def captureLoop (fileDescriptor : Int) : Nat → World → Option Int × World
  | 0, w => (none, w)
  | fuel + 1, w =>
    if w.terminate ≠ 0 then (some 0, w)
    else
      match syscall (Call.select fileDescriptor) w with
      | (none, w1) => (none, w1)
      | (some ready, w1) =>
        if ready.ret = -1 then captureLoop fileDescriptor fuel w1
        else
          match xioctl fileDescriptor Request.VIDIOC_DQBUF w1 with
          | (none, w2) => (none, w2)
          | (some dq, w2) =>
            match xioctl fileDescriptor
                (Request.VIDIOC_QBUF (if dq.ret = -1 then 0 else u32 dq.index)) w2 with
            | (none, w3) => (none, w3)
            | (some _, w3) => captureLoop fileDescriptor fuel w3

/-- The capture loop with enough fuel: every round that does not leave the loop
consumes at least the response to `select`. -/
def captureWhile (fileDescriptor : Int) (w : World) : Option Int × World :=
  captureLoop fileDescriptor (w.script.length + 1) w

/-- The body of `captureFrames` after the set-up loop: `VIDIOC_STREAMON`, then the
capture loop. -/
def captureStream (fileDescriptor : Int) (w : World) : Option Int × World :=
  match xioctl fileDescriptor Request.VIDIOC_STREAMON w with
  | (none, w1) => (none, w1)
  | (some r, w1) => if r.ret = -1 then (some (-1), w1) else captureWhile fileDescriptor w1

/-- The body of `captureFrames` from the `for (i = 0; i < bufferCount; i++)` loop on:
`remaining` is `bufferCount - i`; when it reaches 0 the function goes on to
`VIDIOC_STREAMON` and the capture loop.  After `VIDIOC_QUERYBUF` the round writes
`frameBuffers[i].length`, calls `mmap`, writes `frameBuffers[i].data`, and calls
`VIDIOC_QBUF`; a failed `mmap` is only reported with `perror`: the function
carries on.  Writing through a null `frameBuffers` or past the end of the table
kills the process, and so does `i++` when `i` is `INT_MAX`. -/
def captureSetup (fileDescriptor : Int) : Nat → Nat → World → Option Int × World
  | 0, _, w => captureStream fileDescriptor w
  | remaining + 1, i, w =>
    match xioctl fileDescriptor (Request.VIDIOC_QUERYBUF i) w with
    | (none, w1) => (none, w1)
    | (some q, w1) =>
      if q.ret = -1 then (some (-1), w1)
      else
        match w1.frameBuffers with
        | none => (none, { w1 with fault := some Fault.nullPointer })
        | some table =>
          match table[i]? with
          | none => (none, { w1 with fault := some Fault.outOfBounds })
          | some entry =>
            match syscall (Call.mmap fileDescriptor (u32 q.length) (u32 q.offset))
                { w1 with
                  frameBuffers :=
                    some (table.set i { data := entry.data, length := u32 q.length }) } with
            | (none, w2) => (none, w2)
            | (some m, w2) =>
              match xioctl fileDescriptor (Request.VIDIOC_QBUF i)
                  { w2 with
                    frameBuffers :=
                      some (table.set i { data := m.ret, length := u32 q.length }) } with
              | (none, w4) => (none, w4)
              | (some e, w4) =>
                if e.ret = -1 then (some (-1), w4)
                else if i = INT_MAX then (none, { w4 with fault := some Fault.signedOverflow })
                else captureSetup fileDescriptor remaining (i + 1) w4

/-- `captureFrames` of cameraCapture.c. -/
def captureFrames (fileDescriptor : Int) (w : World) : Option Int × World :=
  captureSetup fileDescriptor w.bufferCount 0 w

/-- The characters of a string whose first byte stands at `offset`, those that
start at byte 2 or later lower-cased. -/
def lowerFrom : Nat → List Char → List Char
  | _, [] => []
  | offset, c :: cs =>
    (if 2 ≤ offset then c.toLower else c) :: lowerFrom (offset + c.utf8Size) cs

/-- The loop `for (i = 2; i < strlen(format); i++) format[i] = tolower(format[i])`
of `configureDevice`: the bytes from position 2 on are lower-cased.  `format` stands
for the bytes of its UTF-8 encoding, which hold no NUL; `tolower` (in the C locale,
the program sets no other) changes the bytes of the letters `A` to `Z` only, so it
changes exactly the characters `A` to `Z` that start at byte 2 or later. -/
def lowerFormat (format : String) : String :=
  String.mk (lowerFrom 0 format.data)

/-- The `strcmp` chain of `configureDevice` that picks pixel format and field order. -/
def selectFormat (format : String) : Option (PixelFormat × FieldOrder) :=
  if format = FORMAT_H264 then
    some (PixelFormat.V4L2_PIX_FMT_H264, FieldOrder.V4L2_FIELD_INTERLACED)
  else if format = FORMAT_MJPEG then
    some (PixelFormat.V4L2_PIX_FMT_MJPEG, FieldOrder.V4L2_FIELD_NONE)
  else none

/-- `configureDevice` of cameraCapture.c.  `width` and `height` are stored in 32-bit
unsigned fields; `bufferCount` is the 32-bit count the device wrote back; `calloc`
gives a table of `bufferCount` zeroed entries, or the null pointer when memory is
exhausted, and its result is not checked. -/
def configureDevice (fileDescriptor : Int) (format : String) (width height : Int)
    (w : World) : Option Int × World :=
  match selectFormat (lowerFormat format) with
  | none => (some (-1), w)
  | some (pixelformat, field) =>
    match xioctl fileDescriptor
        (Request.VIDIOC_S_FMT pixelformat field (toU32 width) (toU32 height)) w with
    | (none, w1) => (none, w1)
    | (some r, w1) =>
      if r.ret = -1 then (some (-1), w1)
      else
        match xioctl fileDescriptor (Request.VIDIOC_REQBUFS 4) w1 with
        | (none, w2) => (none, w2)
        | (some rb, w2) =>
          if rb.ret = -1 then (some (-1), w2)
          else
            (some 0, { w2 with
              bufferCount := u32 rb.count,
              frameBuffers :=
                if w2.heapExhausted then none
                else some (List.replicate (u32 rb.count) { data := 0, length := 0 }) })

/-- `openDevice` of cameraCapture.c. -/
def openDevice (videoDevice : String) (w : World) : Option Int × World :=
  match syscall (Call.openDev videoDevice) w with
  | (none, w1) => (none, w1)
  | (some r, w1) =>
    if r.ret = -1 then (some (-1), w1)
    else
      match xioctl r.ret Request.VIDIOC_QUERYCAP w1 with
      | (none, w2) => (none, w2)
      | (some q, w2) => if q.ret = -1 then (some (-1), w2) else (some r.ret, w2)

/-- The body of `shutdownDevice` from the `for (i = 0; i < bufferCount; i++)` loop
of `munmap` calls on: `remaining` is `bufferCount - i`; when it reaches 0 the
function closes the descriptor and returns 0.  Failures of `munmap` and `close`
are only reported with `perror`.  Reading through a null `frameBuffers` or past
the end of the table kills the process, and so does `i++` when `i` is
`INT_MAX`. -/
def shutdownUnmap (fileDescriptor : Int) : Nat → Nat → World → Option Int × World
  | 0, _, w =>
    match syscall (Call.close fileDescriptor) w with
    | (none, w1) => (none, w1)
    | (some _, w1) => (some 0, w1)
  | remaining + 1, i, w =>
    match w.frameBuffers with
    | none => (none, { w with fault := some Fault.nullPointer })
    | some table =>
      match table[i]? with
      | none => (none, { w with fault := some Fault.outOfBounds })
      | some entry =>
        match syscall (Call.munmap entry.data entry.length) w with
        | (none, w1) => (none, w1)
        | (some _, w1) =>
          if i = INT_MAX then (none, { w1 with fault := some Fault.signedOverflow })
          else shutdownUnmap fileDescriptor remaining (i + 1) w1

/-- `shutdownDevice` of cameraCapture.c. -/
def shutdownDevice (fileDescriptor : Int) (w : World) : Option Int × World :=
  match xioctl fileDescriptor Request.VIDIOC_STREAMOFF w with
  | (none, w1) => (none, w1)
  | (some r, w1) =>
    if r.ret = -1 then (some (-1), w1)
    else shutdownUnmap fileDescriptor w1.bufferCount 0 w1

/-- Steps 2 to 4 of `main`: `configureDevice`, `captureFrames`, `shutdownDevice`, each
ending the program with `EXIT_FAILURE` when it returns `-1`. -/
def runSession (fileDescriptor : Int) (format : String) (width height : Int)
    (w : World) : Option Int × World :=
  match configureDevice fileDescriptor format width height w with
  | (none, w1) => (none, w1)
  | (some c, w1) =>
    if c = -1 then (some EXIT_FAILURE, w1)
    else
      match captureFrames fileDescriptor w1 with
      | (none, w2) => (none, w2)
      | (some f, w2) =>
        if f = -1 then (some EXIT_FAILURE, w2)
        else
          match shutdownDevice fileDescriptor w2 with
          | (none, w3) => (none, w3)
          | (some s, w3) => if s = -1 then (some EXIT_FAILURE, w3) else (some EXIT_SUCCESS, w3)

/-- `main` of cameraCapture.c after option parsing, with its fixed parameters
(`/dev/video0`, `FORMAT_H264`, 320 x 240). -/
def main (w : World) : Option Int × World :=
  match openDevice "/dev/video0" w with
  | (none, w1) => (none, w1)
  | (some fileDescriptor, w1) =>
    if fileDescriptor = -1 then (some EXIT_FAILURE, w1)
    else runSession fileDescriptor FORMAT_H264 320 240 w1

/-! ## Responses of fake devices -/

/-- A response that succeeds: return value 0, nothing written back, no signal. -/
def Reply.ok : Reply :=
  { ret := 0, errno := 0, count := 0, index := 0, length := 0, offset := 0, signals := [] }

/-- A response that fails with the given errno. -/
def Reply.failure (errno : Int) : Reply := { Reply.ok with ret := -1, errno := errno }

/-- A response that returns the given value (a descriptor for `open`, an address
for `mmap`, the number of ready descriptors for `select`). -/
def Reply.returning (ret : Int) : Reply := { Reply.ok with ret := ret }

/-- The response to `VIDIOC_REQBUFS` that grants `count` buffers. -/
def Reply.granting (count : Nat) : Reply := { Reply.ok with count := count }

/-- The response to `VIDIOC_QUERYBUF` that writes back a length and an offset. -/
def Reply.describing (length offset : Nat) : Reply :=
  { Reply.ok with length := length, offset := offset }

/-- The response to `VIDIOC_DQBUF` that hands out the buffer `index`. -/
def Reply.delivering (index : Nat) : Reply := { Reply.ok with index := index }

/-- The same response, with `SIGINT` arriving while the call is in progress. -/
def Reply.withSigint (r : Reply) : Reply := { r with signals := r.signals ++ [SIGINT] }

/-- The events a function issued: the trace of `after` beyond that of `before`. -/
def issued (before after : World) : List Event := after.trace.drop before.trace.length

/-! ## Views of a trace -/

/-- Whether a call releases a resource: `munmap` or `close`. -/
def releases : Call → Bool
  | Call.munmap _ _ => true
  | Call.close _ => true
  | _ => false

/-- The `mmap` calls of a trace, in order: the one at position `k` maps buffer `k`. -/
def mapCalls (t : List Event) : List Event :=
  t.filter (fun e =>
    match e.call with
    | Call.mmap _ _ _ => true
    | _ => false)

/-- A device that grants one buffer and then never has a frame: every `select` times
out (returns 0), every `VIDIOC_DQBUF` fails with `EAGAIN`, and re-queueing the
buffer that is still queued fails with `EINVAL`.  `SIGINT` arrives during the
second round of the capture loop, so the flag is set at the third check. -/
def timeoutDevice : List Reply :=
  [Reply.returning 3, Reply.ok, Reply.ok, Reply.granting 1,
   Reply.describing 4096 0, Reply.returning 40960, Reply.ok,
   Reply.ok,
   Reply.returning 0, Reply.failure EAGAIN, Reply.failure EINVAL,
   Reply.returning 0, Reply.failure EAGAIN, (Reply.failure EINVAL).withSigint,
   Reply.ok, Reply.ok, Reply.ok]

/-- A device that grants one buffer, reports a frame as ready and then fails the
dequeue with `EIO`; `SIGINT` arrives during that round. -/
def failedDequeueDevice : List Reply :=
  [Reply.returning 3, Reply.ok, Reply.ok, Reply.granting 1,
   Reply.describing 4096 0, Reply.returning 40960, Reply.ok,
   Reply.ok,
   Reply.returning 1, Reply.failure EIO, Reply.ok.withSigint,
   Reply.ok, Reply.ok, Reply.ok]

/-- A device that grants three buffers and fails the `mmap` of buffer 1 with
`ENOMEM`; `SIGINT` arrives while streaming is switched on, every other call
succeeds. -/
def mapFailureDevice : List Reply :=
  [Reply.returning 3, Reply.ok, Reply.ok, Reply.granting 3,
   Reply.describing 4096 0, Reply.returning 40960, Reply.ok,
   Reply.describing 4096 4096, Reply.failure ENOMEM, Reply.ok,
   Reply.describing 4096 8192, Reply.returning 49152, Reply.ok,
   Reply.ok.withSigint,
   Reply.ok, Reply.ok, Reply.ok, Reply.ok, Reply.ok]

/-- The same device, except that the `VIDIOC_QBUF` of buffer 2 fails with `EIO`. -/
def mapFailureThenQueueFailureDevice : List Reply :=
  [Reply.returning 3, Reply.ok, Reply.ok, Reply.granting 3,
   Reply.describing 4096 0, Reply.returning 40960, Reply.ok,
   Reply.describing 4096 4096, Reply.failure ENOMEM, Reply.ok,
   Reply.describing 4096 8192, Reply.returning 49152, Reply.failure EIO,
   Reply.ok, Reply.ok, Reply.ok, Reply.ok, Reply.ok]

/-- A world in which two buffers are mapped and the cancellation flag is set, facing
a device that fails `VIDIOC_STREAMOFF` with `EIO` and would answer three more
calls. -/
def streamOffFailureWorld : World :=
  { terminate := TRUE, bufferCount := 2,
    frameBuffers := some [{ data := 40960, length := 4096 }, { data := 45056, length := 4096 }],
    errno := 0, heapExhausted := false, fault := none,
    script := [Reply.failure EIO, Reply.ok, Reply.ok, Reply.ok], trace := [] }

/-- A device (after `open`) that grants two buffers in answer to the request for
four; `SIGINT` arrives while streaming is switched on. -/
def twoBufferDevice : List Reply :=
  [Reply.ok, Reply.granting 2,
   Reply.describing 4096 0, Reply.returning 40960, Reply.ok,
   Reply.describing 4096 4096, Reply.returning 45056, Reply.ok,
   Reply.ok.withSigint,
   Reply.ok, Reply.ok, Reply.ok, Reply.ok]

/-- A device (after `open`) that grants two buffers and then fails the
`VIDIOC_QUERYBUF` of buffer 1 with `EINVAL`. -/
def queryFailureDevice : List Reply :=
  [Reply.ok, Reply.granting 2,
   Reply.describing 4096 0, Reply.returning 40960, Reply.ok,
   Reply.failure EINVAL, Reply.ok, Reply.ok]

/-- The responses of a device (after `open`) for which every call succeeds: it
accepts the format, grants `N` buffers, describes buffer `i` by `length i` and
`offset i` and maps it at `address i`, reports a frame as ready `n` times and hands
out buffer `index j` the `j`-th time, and then lets streaming stop, the buffers be
unmapped and the descriptor be closed.  `SIGINT` arrives during the last system
call before the check of the flag that follows the `n`-th round of the capture
loop: the `VIDIOC_QBUF` of round `n`, or `VIDIOC_STREAMON` when `n = 0`. -/
def obligingDevice (length offset address index : Nat → Nat) (N n : Nat) : List Reply :=
  [Reply.ok, Reply.granting N] ++
  (List.range N).flatMap (fun i =>
    [Reply.describing (length i) (offset i), Reply.returning (address i), Reply.ok]) ++
  [if n = 0 then Reply.ok.withSigint else Reply.ok] ++
  (List.range n).flatMap (fun j =>
    [Reply.returning 1, Reply.delivering (index j),
     if j + 1 = n then Reply.ok.withSigint else Reply.ok]) ++
  [Reply.ok] ++ List.replicate N Reply.ok ++ [Reply.ok]

/-- The calls `configureDevice` issues against an obliging device: set-format with
the 32-bit width and height, then the request for 4 buffers. -/
def configureCalls (fd : Int) (pixelformat : PixelFormat) (field : FieldOrder)
    (width height : Int) : List Call :=
  [Call.ioctl fd (Request.VIDIOC_S_FMT pixelformat field (toU32 width) (toU32 height)),
   Call.ioctl fd (Request.VIDIOC_REQBUFS 4)]

/-- The calls `captureFrames` issues against an obliging device: query buffer `i`, map
it with the length and offset the device described, enqueue `i`, for
`i = 0, …, N - 1`; then stream-on; then wait, dequeue, enqueue `n` times. -/
def captureCalls (fd : Int) (length offset index : Nat → Nat) (N n : Nat) : List Call :=
  (List.range N).flatMap (fun i =>
    [Call.ioctl fd (Request.VIDIOC_QUERYBUF i),
     Call.mmap fd (u32 (length i)) (u32 (offset i)),
     Call.ioctl fd (Request.VIDIOC_QBUF i)]) ++
  [Call.ioctl fd Request.VIDIOC_STREAMON] ++
  (List.range n).flatMap (fun j =>
    [Call.select fd, Call.ioctl fd Request.VIDIOC_DQBUF,
     Call.ioctl fd (Request.VIDIOC_QBUF (u32 (index j)))])

/-- The calls `shutdownDevice` issues against an obliging device: stream-off, one
unmap for each buffer with the address and length recorded for it, close. -/
def shutdownCalls (fd : Int) (length address : Nat → Nat) (N : Nat) : List Call :=
  [Call.ioctl fd Request.VIDIOC_STREAMOFF] ++
  (List.range N).map (fun i => Call.munmap (address i) (u32 (length i))) ++
  [Call.close fd]

/-- The system calls of a whole session, readiness waits included. -/
def sessionCalls (fd : Int) (pixelformat : PixelFormat) (field : FieldOrder)
    (width height : Int) (length offset address index : Nat → Nat) (N n : Nat) : List Call :=
  configureCalls fd pixelformat field width height ++
  captureCalls fd length offset index N n ++
  shutdownCalls fd length address N

/-- The device operations of a whole session, that is its system calls without the
readiness waits: set-format, request-buffers, then query, map, enqueue for each
buffer, stream-on, then `n` pairs of dequeue and enqueue, stream-off, one unmap for
each buffer, close. -/
def deviceOperations (fd : Int) (pixelformat : PixelFormat) (field : FieldOrder)
    (width height : Int) (length offset address index : Nat → Nat) (N n : Nat) : List Call :=
  [Call.ioctl fd (Request.VIDIOC_S_FMT pixelformat field (toU32 width) (toU32 height)),
   Call.ioctl fd (Request.VIDIOC_REQBUFS 4)] ++
  (List.range N).flatMap (fun i =>
    [Call.ioctl fd (Request.VIDIOC_QUERYBUF i),
     Call.mmap fd (u32 (length i)) (u32 (offset i)),
     Call.ioctl fd (Request.VIDIOC_QBUF i)]) ++
  [Call.ioctl fd Request.VIDIOC_STREAMON] ++
  (List.range n).flatMap (fun j =>
    [Call.ioctl fd Request.VIDIOC_DQBUF,
     Call.ioctl fd (Request.VIDIOC_QBUF (u32 (index j)))]) ++
  [Call.ioctl fd Request.VIDIOC_STREAMOFF] ++
  (List.range N).map (fun i => Call.munmap (address i) (u32 (length i))) ++
  [Call.close fd]

/-- The buffer table after the set-up against an obliging device: entry `i` holds
the address buffer `i` was mapped at and its length. -/
def mappedTable (length address : Nat → Nat) (N : Nat) : List frameBuffer :=
  (List.range N).map (fun i => { data := address i, length := u32 (length i) })

/-- The world at program start when memory is exhausted, so that `calloc` fails. -/
def World.startExhausted (script : List Reply) : World :=
  { World.start script with heapExhausted := true }

/-- The calls of a trace that are not readiness waits. -/
def withoutWaits (calls : List Call) : List Call :=
  calls.filter (fun c =>
    match c with
    | Call.select _ => false
    | _ => true)

/-- A device that opens and answers the capability query, then rejects the format
with `EINVAL`; it would answer further calls. -/
def rejectFormatDevice : List Reply :=
  [Reply.returning 3, Reply.ok, Reply.failure EINVAL, Reply.ok, Reply.ok, Reply.ok]

/-! ## System calls and `xioctl` -/

theorem deliver_eq (signals : List Int) (w : World) :
    deliver signals w = { w with terminate := if SIGINT ∈ signals then TRUE else w.terminate } := by
  induction signals generalizing w with
  | nil => simp [deliver]
  | cons s rest ih =>
    have h : deliver (s :: rest) w = deliver rest (signalHandler s w) := rfl
    rw [h, ih]
    by_cases hs : s = SIGINT
    · simp [signalHandler, hs]
    · have hs2 : ¬ SIGINT = s := fun h => hs h.symm
      simp [signalHandler, hs, hs2]

theorem respond_eq (c : Call) (r : Reply) (w : World) :
    respond c r w =
      { w with trace := w.trace ++ [{ call := c, reply := r }],
               errno := if r.ret = -1 then r.errno else w.errno,
               terminate := if SIGINT ∈ r.signals then TRUE else w.terminate } := by
  simp [respond, deliver_eq]

theorem syscall_nil (c : Call) (w : World) (h : w.script = []) : syscall c w = (none, w) := by
  simp [syscall, h]

theorem syscall_cons (c : Call) (w : World) (r : Reply) (rest : List Reply)
    (h : w.script = r :: rest) :
    syscall c w = (some r, respond c r { w with script := rest }) := by
  simp [syscall, h]

theorem xioctl_cons (fd : Int) (req : Request) (w : World) (r : Reply) (rest : List Reply)
    (h : w.script = r :: rest) :
    xioctl fd req w =
      if r.ret = -1 ∧ r.errno = EINTR then
        xioctl fd req (respond (Call.ioctl fd req) r { w with script := rest })
      else (some r, respond (Call.ioctl fd req) r { w with script := rest }) := by
  simp only [xioctl, h, List.length_cons, xioctlLoop, syscall_cons _ _ _ _ h]
  by_cases hr : r.ret = -1
  · simp [hr, respond_eq]
  · simp [hr]

/-- Everything `xioctl` does to the world: the globals of the program are untouched,
a set flag stays set, the responses consumed are those of the calls issued, all
calls issued are the requested `ioctl`, and when a response is returned it is
the last one, it is not an interrupted failure, and all calls before it
failed. -/
theorem xioctlLoop_spec (fd : Int) (req : Request) :
    ∀ (fuel : Nat) (w : World) (o : Option Reply) (w' : World),
      xioctlLoop fd req fuel w = (o, w') →
      w'.bufferCount = w.bufferCount ∧ w'.frameBuffers = w.frameBuffers ∧
      (w.terminate ≠ 0 → w'.terminate ≠ 0) ∧
      ∃ evs, w'.trace = w.trace ++ evs ∧ w.script = evs.map Event.reply ++ w'.script ∧
        (∀ e ∈ evs, e.call = Call.ioctl fd req) ∧
        (∀ r, o = some r → ¬ (r.ret = -1 ∧ w'.errno = EINTR) ∧
          ∃ pre, evs = pre ++ [{ call := Call.ioctl fd req, reply := r }] ∧
            ∀ e ∈ pre, e.reply.ret = -1) := by
  intro fuel
  induction fuel with
  | zero =>
    intro w o w' h
    simp only [xioctlLoop, Prod.mk.injEq] at h
    obtain ⟨rfl, rfl⟩ := h
    exact ⟨rfl, rfl, id, [], by simp, by simp, by simp, by simp⟩
  | succ n ih =>
    intro w o w' h
    cases hs : w.script with
    | nil =>
      simp only [xioctlLoop, syscall_nil _ _ hs, Prod.mk.injEq] at h
      obtain ⟨rfl, rfl⟩ := h
      exact ⟨rfl, rfl, id, [], by simp, by simp [hs], by simp, by simp⟩
    | cons r rest =>
      simp only [xioctlLoop, syscall_cons _ _ _ _ hs] at h
      have hterm : w.terminate ≠ 0 →
          (respond (Call.ioctl fd req) r { w with script := rest }).terminate ≠ 0 := by
        intro h0
        simp only [respond_eq]
        split
        · simp [TRUE]
        · exact h0
      split at h
      · obtain ⟨hb, hf, ht, evs, htr, hsc, hcall, hlast⟩ := ih _ _ _ h
        refine ⟨by simpa [respond_eq] using hb, by simpa [respond_eq] using hf,
          fun h0 => ht (hterm h0), { call := Call.ioctl fd req, reply := r } :: evs, ?_, ?_, ?_, ?_⟩
        · simpa [respond_eq] using htr
        · simpa [respond_eq] using hsc
        · intro e he
          rcases List.mem_cons.mp he with rfl | he
          · rfl
          · exact hcall e he
        · intro r' hr'
          obtain ⟨hne, pre, hpre, hall⟩ := hlast r' hr'
          refine ⟨hne, { call := Call.ioctl fd req, reply := r } :: pre, by simp [hpre], ?_⟩
          intro e he
          rcases List.mem_cons.mp he with rfl | he
          · rename_i hcond
            exact hcond.1
          · exact hall e he
      · rename_i hcond
        simp only [Prod.mk.injEq] at h
        obtain ⟨rfl, rfl⟩ := h
        refine ⟨by simp [respond_eq], by simp [respond_eq], hterm,
          [{ call := Call.ioctl fd req, reply := r }], by simp [respond_eq], by simp [respond_eq],
          by simp, ?_⟩
        intro r' hr'
        simp only [Option.some.injEq] at hr'
        subst hr'
        exact ⟨hcond, [], by simp, by simp⟩

theorem xioctl_spec (fd : Int) (req : Request) (w : World) (o : Option Reply) (w' : World)
    (h : xioctl fd req w = (o, w')) :
    w'.bufferCount = w.bufferCount ∧ w'.frameBuffers = w.frameBuffers ∧
    (w.terminate ≠ 0 → w'.terminate ≠ 0) ∧
    ∃ evs, w'.trace = w.trace ++ evs ∧ w.script = evs.map Event.reply ++ w'.script ∧
      (∀ e ∈ evs, e.call = Call.ioctl fd req) ∧
      (∀ r, o = some r → ¬ (r.ret = -1 ∧ w'.errno = EINTR) ∧
        ∃ pre, evs = pre ++ [{ call := Call.ioctl fd req, reply := r }] ∧
          ∀ e ∈ pre, e.reply.ret = -1) :=
  xioctlLoop_spec fd req _ w o w' h

/-- The world after a system call: the globals of the program are untouched, a set
flag stays set, and at most the one call was added to the trace. -/
theorem syscall_spec (c : Call) (w : World) (o : Option Reply) (w' : World)
    (h : syscall c w = (o, w')) :
    w'.bufferCount = w.bufferCount ∧ w'.frameBuffers = w.frameBuffers ∧
    (w.terminate ≠ 0 → w'.terminate ≠ 0) ∧
    ∃ evs, w'.trace = w.trace ++ evs ∧ w.script = evs.map Event.reply ++ w'.script ∧
      (∀ e ∈ evs, e.call = c) ∧
      (∀ r, o = some r → evs = [{ call := c, reply := r }]) ∧ (o = none → evs = []) := by
  cases hs : w.script with
  | nil =>
    simp only [syscall_nil _ _ hs, Prod.mk.injEq] at h
    obtain ⟨rfl, rfl⟩ := h
    exact ⟨rfl, rfl, id, [], by simp, by simp [hs], by simp, by simp, by simp⟩
  | cons r rest =>
    simp only [syscall_cons _ _ _ _ hs, Prod.mk.injEq] at h
    obtain ⟨rfl, rfl⟩ := h
    refine ⟨by simp [respond_eq], by simp [respond_eq], ?_,
      [{ call := c, reply := r }], by simp [respond_eq], by simp [respond_eq], by simp, by simp,
      by simp⟩
    intro h0
    simp only [respond_eq]
    split
    · simp [TRUE]
    · exact h0

theorem issued_of_trace (w w' : World) (evs : List Event) (h : w'.trace = w.trace ++ evs) :
    issued w w' = evs := by
  simp [issued, h]

/-- The world after `xioctl` met interrupted failures `fails` and then `r`. -/
theorem xioctl_after_interrupts (fd : Int) (req : Request) (r : Reply) (rest : List Reply)
    (hr : ¬ (r.ret = -1 ∧ r.errno = EINTR)) :
    ∀ (fails : List Reply) (w : World), w.script = fails ++ r :: rest →
      (∀ f ∈ fails, f.ret = -1 ∧ f.errno = EINTR) →
      (xioctl fd req w).1 = some r ∧
      (xioctl fd req w).2.trace =
        w.trace ++ (fails ++ [r]).map (fun x => { call := Call.ioctl fd req, reply := x }) ∧
      (xioctl fd req w).2.script = rest ∧
      (r.ret = -1 → (xioctl fd req w).2.errno = r.errno) := by
  intro fails
  induction fails with
  | nil =>
    intro w hs _
    simp only [List.nil_append] at hs
    rw [xioctl_cons fd req w r rest hs, if_neg hr]
    refine ⟨rfl, by simp [respond_eq], by simp [respond_eq], ?_⟩
    intro h1
    simp [respond_eq, h1]
  | cons f fails ih =>
    intro w hs hf
    have hf1 : f.ret = -1 ∧ f.errno = EINTR := hf f (List.mem_cons_self _ _)
    rw [xioctl_cons fd req w f (fails ++ r :: rest) (by simpa using hs), if_pos hf1]
    obtain ⟨h1, h2, h3, h4⟩ := ih (respond (Call.ioctl fd req) f { w with script := fails ++ r :: rest })
      (by simp [respond_eq]) (fun x hx => hf x (List.mem_cons_of_mem _ hx))
    refine ⟨h1, ?_, h3, h4⟩
    rw [h2]
    simp [respond_eq]

/-- C9: when the device answers a control call with `k` failures whose errno is
`EINTR` (the list `fails`) and then with a response `r` that is not such a
failure, `xioctl` issues exactly `k + 1` `ioctl` calls with the same request,
returns `r`, leaves the later responses untouched, and when `r` is a failure
`errno` is the one `r` set; and whenever `xioctl` returns a response at all, that
response is not a failure with `errno = EINTR`. -/
theorem C9_xioctl_retries_interrupted_calls (fd : Int) (req : Request) (w : World)
    (fails : List Reply) (r : Reply) (rest : List Reply)
    (hscript : w.script = fails ++ r :: rest)
    (hfails : ∀ f ∈ fails, f.ret = -1 ∧ f.errno = EINTR)
    (hr : ¬ (r.ret = -1 ∧ r.errno = EINTR)) :
    (xioctl fd req w).1 = some r ∧
    (issued w (xioctl fd req w).2).map Event.call =
      List.replicate (fails.length + 1) (Call.ioctl fd req) ∧
    (issued w (xioctl fd req w).2).map Event.reply = fails ++ [r] ∧
    (xioctl fd req w).2.script = rest ∧
    (r.ret = -1 → (xioctl fd req w).2.errno = r.errno) ∧
    (∀ (fd' : Int) (req' : Request) (u u' : World) (r' : Reply),
      xioctl fd' req' u = (some r', u') → ¬ (r'.ret = -1 ∧ u'.errno = EINTR)) := by
  obtain ⟨h1, h2, h3, h4⟩ := xioctl_after_interrupts fd req r rest hr fails w hscript hfails
  refine ⟨h1, ?_, ?_, h3, h4, ?_⟩
  · rw [issued_of_trace _ _ _ h2]
    simp only [List.map_map]
    rw [List.eq_replicate_iff]
    constructor
    · simp
    · intro b hb
      simp only [List.mem_map, Function.comp] at hb
      obtain ⟨_, _, rfl⟩ := hb
      rfl
  · rw [issued_of_trace _ _ _ h2]
    simp [List.map_map, Function.comp_def]
  · intro fd' req' u u' r' h
    exact ((xioctl_spec fd' req' u (some r') u' h).2.2.2.choose_spec.2.2.2 r' rfl).1

/-- C9 at a concrete device: two interrupted failures, then a failure with `EAGAIN`. -/
theorem C9_xioctl_retries_interrupted_calls_witness :
    (xioctl 3 Request.VIDIOC_DQBUF
        (World.start [Reply.failure EINTR, Reply.failure EINTR, Reply.failure EAGAIN, Reply.ok])).1 =
      some (Reply.failure EAGAIN) ∧
    (issued (World.start [Reply.failure EINTR, Reply.failure EINTR, Reply.failure EAGAIN, Reply.ok])
        (xioctl 3 Request.VIDIOC_DQBUF
          (World.start [Reply.failure EINTR, Reply.failure EINTR, Reply.failure EAGAIN,
            Reply.ok])).2).map Event.call =
      List.replicate 3 (Call.ioctl 3 Request.VIDIOC_DQBUF) ∧
    (xioctl 3 Request.VIDIOC_DQBUF
        (World.start [Reply.failure EINTR, Reply.failure EINTR, Reply.failure EAGAIN, Reply.ok])).2.errno =
      EAGAIN :=
  have h := C9_xioctl_retries_interrupted_calls 3 Request.VIDIOC_DQBUF
    (World.start [Reply.failure EINTR, Reply.failure EINTR, Reply.failure EAGAIN, Reply.ok])
    [Reply.failure EINTR, Reply.failure EINTR] (Reply.failure EAGAIN) [Reply.ok] rfl
    (by decide) (by decide)
  ⟨h.1, h.2.1, h.2.2.2.2.1 rfl⟩

theorem captureWhile_of_terminate (fd : Int) (w : World) (h : w.terminate ≠ 0) :
    captureWhile fd w = (some 0, w) := by
  simp [captureWhile, captureLoop, h]

theorem signalHandler_keeps_flag (s : Int) (u : World) (h : u.terminate ≠ 0) :
    (signalHandler s u).terminate ≠ 0 := by
  unfold signalHandler
  split
  · simp [TRUE]
  · exact h

/-- C8: when the flag `terminate` is set (non-zero) at the start of the capture loop,
the loop returns 0 and leaves the world as it was: no wait, no dequeue and no
enqueue is issued and no response is consumed; so `captureFrames`, whose set-up
ended with a successful `VIDIOC_STREAMON` in such a world, returns 0 there.  The
flag stays set however many further signals arrive; `signalHandler` sets it to
`TRUE` on `SIGINT` (once or several times), changes nothing for any other
signal number, and never clears it. -/
theorem C8_cancelled_before_loop (fd : Int) (w : World) (h : w.terminate ≠ 0) :
    captureWhile fd w = (some 0, w) ∧
    (∀ (w0 : World) (r : Reply),
      xioctl fd Request.VIDIOC_STREAMON w0 = (some r, w) → r.ret ≠ -1 →
      captureStream fd w0 = (some 0, w)) ∧
    (∀ signals : List Int, (deliver signals w).terminate ≠ 0) ∧
    (∀ (n : Nat) (u : World),
      (deliver (List.replicate (n + 1) SIGINT) u).terminate = TRUE ∧
      captureWhile fd (deliver (List.replicate (n + 1) SIGINT) u) =
        (some 0, deliver (List.replicate (n + 1) SIGINT) u)) ∧
    (∀ u : World, (signalHandler SIGINT u).terminate = TRUE) ∧
    (∀ (s : Int) (u : World), s ≠ SIGINT → signalHandler s u = u) ∧
    (∀ (s : Int) (u : World), u.terminate ≠ 0 → (signalHandler s u).terminate ≠ 0) := by
  refine ⟨captureWhile_of_terminate fd w h, ?_, ?_, ?_, ?_, ?_, signalHandler_keeps_flag⟩
  · intro w0 r hx hr
    simp only [captureStream, hx, if_neg hr]
    exact captureWhile_of_terminate fd w h
  · intro signals
    rw [deliver_eq]
    by_cases hs : SIGINT ∈ signals
    · simp [hs, TRUE]
    · simpa [hs] using h
  · intro n u
    have ht : (deliver (List.replicate (n + 1) SIGINT) u).terminate = TRUE := by
      rw [deliver_eq]
      simp [List.replicate_succ]
    refine ⟨ht, captureWhile_of_terminate fd _ ?_⟩
    rw [ht]
    simp [TRUE]
  · intro u
    simp [signalHandler]
  · intro s u hs
    simp [signalHandler, hs]

/-- C8 at a concrete world: `SIGINT` was handled twice before the loop; the device
has a frame ready, and none of its responses is consumed. -/
theorem C8_cancelled_before_loop_witness :
    captureWhile 3 (deliver [SIGINT, SIGINT]
        (World.start [Reply.returning 1, Reply.delivering 0, Reply.ok])) =
      (some 0, deliver [SIGINT, SIGINT]
        (World.start [Reply.returning 1, Reply.delivering 0, Reply.ok])) ∧
    (deliver [SIGINT, SIGINT]
      (World.start [Reply.returning 1, Reply.delivering 0, Reply.ok])).trace = [] ∧
    (deliver [SIGINT, SIGINT]
      (World.start [Reply.returning 1, Reply.delivering 0, Reply.ok])).script =
        [Reply.returning 1, Reply.delivering 0, Reply.ok] :=
  ⟨(C8_cancelled_before_loop 3
      (deliver [SIGINT, SIGINT] (World.start [Reply.returning 1, Reply.delivering 0, Reply.ok]))
      (by decide)).1, by decide, by decide⟩

/-- C5 (amended): when the `VIDIOC_STREAMOFF` call fails, `shutdownDevice` returns -1 at
once, in the world `xioctl` left: the program's buffers are as before, and every
call `shutdownDevice` issued is the `VIDIOC_STREAMOFF` `ioctl`, so no `munmap` and
no `close` is attempted. -/
theorem C5_stream_off_failure_returns_at_once (fd : Int) (w w1 : World) (r : Reply)
    (hoff : xioctl fd Request.VIDIOC_STREAMOFF w = (some r, w1)) (hr : r.ret = -1) :
    shutdownDevice fd w = (some (-1), w1) ∧
    w1.bufferCount = w.bufferCount ∧ w1.frameBuffers = w.frameBuffers ∧
    (∀ e ∈ issued w w1, e.call = Call.ioctl fd Request.VIDIOC_STREAMOFF) ∧
    (∀ e ∈ issued w w1, e.call ≠ Call.close fd ∧ ∀ data length, e.call ≠ Call.munmap data length) := by
  obtain ⟨hb, hf, _, evs, htr, _, hcall, _⟩ := xioctl_spec _ _ _ _ _ hoff
  rw [issued_of_trace _ _ _ htr]
  refine ⟨by simp [shutdownDevice, hoff, hr], hb, hf, hcall, ?_⟩
  intro e he
  rw [hcall e he]
  simp

/-- C5 (amended) at `streamOffFailureWorld`. -/
theorem C5_stream_off_failure_returns_at_once_witness :
    shutdownDevice 3 streamOffFailureWorld =
      (some (-1), (xioctl 3 Request.VIDIOC_STREAMOFF streamOffFailureWorld).2) ∧
    (xioctl 3 Request.VIDIOC_STREAMOFF streamOffFailureWorld).2.frameBuffers =
      streamOffFailureWorld.frameBuffers :=
  have h := C5_stream_off_failure_returns_at_once 3 streamOffFailureWorld
    (xioctl 3 Request.VIDIOC_STREAMOFF streamOffFailureWorld).2 (Reply.failure EIO)
    (by decide) (by decide)
  ⟨h.1, h.2.2.1⟩

/-- The capture loop leaves the buffer pool alone and issues only `select`,
`VIDIOC_DQBUF` and `VIDIOC_QBUF` calls. -/
theorem captureLoop_spec (fd : Int) :
    ∀ (fuel : Nat) (w : World) (o : Option Int) (w' : World),
      captureLoop fd fuel w = (o, w') →
      w'.bufferCount = w.bufferCount ∧ w'.frameBuffers = w.frameBuffers ∧
      (o = none ∨ o = some 0) ∧
      ∃ evs, w'.trace = w.trace ++ evs ∧
        ∀ e ∈ evs, e.call = Call.select fd ∨ e.call = Call.ioctl fd Request.VIDIOC_DQBUF ∨
          ∃ i, e.call = Call.ioctl fd (Request.VIDIOC_QBUF i) := by
  intro fuel
  induction fuel with
  | zero =>
    intro w o w' h
    simp only [captureLoop, Prod.mk.injEq] at h
    obtain ⟨rfl, rfl⟩ := h
    exact ⟨rfl, rfl, Or.inl rfl, [], by simp, by simp⟩
  | succ n ih =>
    intro w o w' h
    rw [captureLoop] at h
    split at h
    · simp only [Prod.mk.injEq] at h
      obtain ⟨rfl, rfl⟩ := h
      exact ⟨rfl, rfl, Or.inr rfl, [], by simp, by simp⟩
    · split at h
      · rename_i w1 hsel
        simp only [Prod.mk.injEq] at h
        obtain ⟨rfl, rfl⟩ := h
        obtain ⟨hb, hf, _, evs, htr, _, hcall, _⟩ := syscall_spec _ _ _ _ hsel
        exact ⟨hb, hf, Or.inl rfl, evs, htr, fun e he => Or.inl (hcall e he)⟩
      · rename_i ready w1 hsel
        obtain ⟨hb1, hf1, _, evs1, htr1, _, hcall1, _⟩ := syscall_spec _ _ _ _ hsel
        split at h
        · obtain ⟨hb, hf, ho, evs, htr, hcall⟩ := ih _ _ _ h
          refine ⟨hb.trans hb1, hf.trans hf1, ho, evs1 ++ evs, by rw [htr, htr1, List.append_assoc], ?_⟩
          intro e he
          rcases List.mem_append.mp he with he | he
          · exact Or.inl (hcall1 e he)
          · exact hcall e he
        · split at h
          · rename_i w2 hdq
            simp only [Prod.mk.injEq] at h
            obtain ⟨rfl, rfl⟩ := h
            obtain ⟨hb2, hf2, _, evs2, htr2, _, hcall2, _⟩ := xioctl_spec _ _ _ _ _ hdq
            refine ⟨hb2.trans hb1, hf2.trans hf1, Or.inl rfl, evs1 ++ evs2,
              by rw [htr2, htr1, List.append_assoc], ?_⟩
            intro e he
            rcases List.mem_append.mp he with he | he
            · exact Or.inl (hcall1 e he)
            · exact Or.inr (Or.inl (hcall2 e he))
          · rename_i dq w2 hdq
            obtain ⟨hb2, hf2, _, evs2, htr2, _, hcall2, _⟩ := xioctl_spec _ _ _ _ _ hdq
            split at h
            · rename_i w3 hq
              simp only [Prod.mk.injEq] at h
              obtain ⟨rfl, rfl⟩ := h
              obtain ⟨hb3, hf3, _, evs3, htr3, _, hcall3, _⟩ := xioctl_spec _ _ _ _ _ hq
              refine ⟨hb3.trans (hb2.trans hb1), hf3.trans (hf2.trans hf1), Or.inl rfl,
                evs1 ++ evs2 ++ evs3, by rw [htr3, htr2, htr1]; simp, ?_⟩
              intro e he
              rcases List.mem_append.mp he with he | he
              · rcases List.mem_append.mp he with he | he
                · exact Or.inl (hcall1 e he)
                · exact Or.inr (Or.inl (hcall2 e he))
              · exact Or.inr (Or.inr ⟨_, hcall3 e he⟩)
            · rename_i x w3 hq
              obtain ⟨hb3, hf3, _, evs3, htr3, _, hcall3, _⟩ := xioctl_spec _ _ _ _ _ hq
              obtain ⟨hb, hf, ho, evs, htr, hcall⟩ := ih _ _ _ h
              refine ⟨hb.trans (hb3.trans (hb2.trans hb1)), hf.trans (hf3.trans (hf2.trans hf1)),
                ho, evs1 ++ evs2 ++ evs3 ++ evs, by rw [htr, htr3, htr2, htr1]; simp, ?_⟩
              intro e he
              rcases List.mem_append.mp he with he | he
              · rcases List.mem_append.mp he with he | he
                · rcases List.mem_append.mp he with he | he
                  · exact Or.inl (hcall1 e he)
                  · exact Or.inr (Or.inl (hcall2 e he))
                · exact Or.inr (Or.inr ⟨_, hcall3 e he⟩)
              · exact hcall e he

theorem releases_of_loop_call (fd : Int) (c : Call)
    (h : c = Call.select fd ∨ c = Call.ioctl fd Request.VIDIOC_DQBUF ∨
      ∃ i, c = Call.ioctl fd (Request.VIDIOC_QBUF i)) : releases c = false := by
  rcases h with h | h | ⟨i, h⟩ <;> simp [h, releases]

/-- Everything the body of `captureFrames` does to the pool size and to the
resources: `bufferCount` is untouched, and no call it issues is a `munmap` or a
`close`. -/
theorem captureSetup_spec (fd : Int) :
    ∀ (remaining i : Nat) (w : World) (o : Option Int) (w' : World),
      captureSetup fd remaining i w = (o, w') →
      w'.bufferCount = w.bufferCount ∧
      ∃ evs, w'.trace = w.trace ++ evs ∧ ∀ e ∈ evs, releases e.call = false := by
  intro remaining
  induction remaining with
  | zero =>
    intro i w o w' h
    rw [captureSetup, captureStream] at h
    split at h
    · rename_i w1 hon
      simp only [Prod.mk.injEq] at h
      obtain ⟨rfl, rfl⟩ := h
      obtain ⟨hb, _, _, evs, htr, _, hcall, _⟩ := xioctl_spec _ _ _ _ _ hon
      exact ⟨hb, evs, htr, fun e he => by simp [hcall e he, releases]⟩
    · rename_i r w1 hon
      obtain ⟨hb, _, _, evs, htr, _, hcall, _⟩ := xioctl_spec _ _ _ _ _ hon
      split at h
      · simp only [Prod.mk.injEq] at h
        obtain ⟨rfl, rfl⟩ := h
        exact ⟨hb, evs, htr, fun e he => by simp [hcall e he, releases]⟩
      · obtain ⟨hb2, _, _, evs2, htr2, hcall2⟩ := captureLoop_spec fd _ _ _ _ h
        refine ⟨hb2.trans hb, evs ++ evs2, by rw [htr2, htr, List.append_assoc], ?_⟩
        intro e he
        rcases List.mem_append.mp he with he | he
        · simp [hcall e he, releases]
        · exact releases_of_loop_call fd _ (hcall2 e he)
  | succ n ih =>
    intro i w o w' h
    rw [captureSetup] at h
    split at h
    · rename_i w1 hq
      simp only [Prod.mk.injEq] at h
      obtain ⟨rfl, rfl⟩ := h
      obtain ⟨hb, _, _, evs, htr, _, hcall, _⟩ := xioctl_spec _ _ _ _ _ hq
      exact ⟨hb, evs, htr, fun e he => by simp [hcall e he, releases]⟩
    · rename_i q w1 hq
      obtain ⟨hb1, _, _, evs1, htr1, _, hcall1, _⟩ := xioctl_spec _ _ _ _ _ hq
      have hrel1 : ∀ e ∈ evs1, releases e.call = false :=
        fun e he => by simp [hcall1 e he, releases]
      split at h
      · simp only [Prod.mk.injEq] at h
        obtain ⟨rfl, rfl⟩ := h
        exact ⟨hb1, evs1, htr1, hrel1⟩
      · split at h
        · simp only [Prod.mk.injEq] at h
          obtain ⟨rfl, rfl⟩ := h
          exact ⟨hb1, evs1, htr1, hrel1⟩
        · split at h
          · simp only [Prod.mk.injEq] at h
            obtain ⟨rfl, rfl⟩ := h
            exact ⟨hb1, evs1, htr1, hrel1⟩
          · split at h
            · rename_i w2 hm
              simp only [Prod.mk.injEq] at h
              obtain ⟨rfl, rfl⟩ := h
              obtain ⟨hb2, _, _, evs2, htr2, _, hcall2, _⟩ := syscall_spec _ _ _ _ hm
              refine ⟨hb2.trans hb1, evs1 ++ evs2, by rw [htr2]; simp [htr1], ?_⟩
              intro e he
              rcases List.mem_append.mp he with he | he
              · exact hrel1 e he
              · simp [hcall2 e he, releases]
            · rename_i m w2 hm
              obtain ⟨hb2, _, _, evs2, htr2, _, hcall2, _⟩ := syscall_spec _ _ _ _ hm
              have hrel2 : ∀ e ∈ evs1 ++ evs2, releases e.call = false := by
                intro e he
                rcases List.mem_append.mp he with he | he
                · exact hrel1 e he
                · simp [hcall2 e he, releases]
              have htr12 : w2.trace = w.trace ++ (evs1 ++ evs2) := by
                rw [htr2]
                simp [htr1]
              split at h
              · rename_i w4 he4
                simp only [Prod.mk.injEq] at h
                obtain ⟨rfl, rfl⟩ := h
                obtain ⟨hb3, _, _, evs3, htr3, _, hcall3, _⟩ := xioctl_spec _ _ _ _ _ he4
                refine ⟨hb3.trans (hb2.trans hb1), evs1 ++ evs2 ++ evs3,
                  by rw [htr3]; simp [htr12], ?_⟩
                intro e he
                rcases List.mem_append.mp he with he | he
                · exact hrel2 e he
                · simp [hcall3 e he, releases]
              · rename_i e4 w4 he4
                obtain ⟨hb3, _, _, evs3, htr3, _, hcall3, _⟩ := xioctl_spec _ _ _ _ _ he4
                have hrel3 : ∀ e ∈ evs1 ++ evs2 ++ evs3, releases e.call = false := by
                  intro e he
                  rcases List.mem_append.mp he with he | he
                  · exact hrel2 e he
                  · simp [hcall3 e he, releases]
                have htr123 : w4.trace = w.trace ++ (evs1 ++ evs2 ++ evs3) := by
                  rw [htr3]
                  simp [htr12]
                have hb123 : w4.bufferCount = w.bufferCount := by
                  rw [hb3]
                  simp [hb2, hb1]
                split at h
                · simp only [Prod.mk.injEq] at h
                  obtain ⟨rfl, rfl⟩ := h
                  exact ⟨hb123, _, htr123, hrel3⟩
                · split at h
                  · simp only [Prod.mk.injEq] at h
                    obtain ⟨rfl, rfl⟩ := h
                    exact ⟨hb123, _, htr123, hrel3⟩
                  · obtain ⟨hb, evs, htr, hrel⟩ := ih _ _ _ _ h
                    refine ⟨hb.trans hb123, evs1 ++ evs2 ++ evs3 ++ evs,
                      by rw [htr, htr123, List.append_assoc], ?_⟩
                    intro e he
                    rcases List.mem_append.mp he with he | he
                    · exact hrel3 e he
                    · exact hrel e he

/-- C4 (amended): when the `mmap` of buffer `k` fails during the pool set-up,
`captureFrames` itself unmaps nothing and does not close the descriptor, whatever
it goes on to do; and when `captureFrames` returns -1, the program ends with
`EXIT_FAILURE` in the very world `captureFrames` left, so no `munmap` and no `close`
is issued before it returns. -/
theorem C4_map_failure_releases_nothing (fd : Int) (w w' : World) (o : Option Int)
    (k : Nat) (e : Event) (hrun : captureFrames fd w = (o, w')) (_hk : k < w.bufferCount)
    (_hmap : (mapCalls (issued w w'))[k]? = some e) (_hfail : e.reply.ret = MAP_FAILED) :
    (∀ x ∈ issued w w', x.call ≠ Call.close fd ∧ ∀ data length, x.call ≠ Call.munmap data length) ∧
    (o = some (-1) → ∀ (format : String) (width height : Int) (w0 : World),
      configureDevice fd format width height w0 = (some 0, w) →
      runSession fd format width height w0 = (some EXIT_FAILURE, w')) := by
  obtain ⟨_, evs, htr, hrel⟩ := captureSetup_spec fd _ _ _ _ _ hrun
  rw [issued_of_trace _ _ _ htr]
  constructor
  · intro x hx
    have h := hrel x hx
    constructor
    · intro hc
      simp [hc, releases] at h
    · intro data length hc
      simp [hc, releases] at h
  · intro ho format width height w0 hc
    subst ho
    simp [runSession, hc, hrun]

/-- C4 (amended) against `mapFailureThenQueueFailureDevice`: the `mmap` of buffer 1 of 3
fails, the set-up later returns -1, and the program ends with `EXIT_FAILURE`. -/
theorem C4_map_failure_releases_nothing_witness :
    runSession 3 FORMAT_H264 320 240
        (openDevice "/dev/video0" (World.start mapFailureThenQueueFailureDevice)).2 =
      (some EXIT_FAILURE,
        (captureFrames 3 (configureDevice 3 FORMAT_H264 320 240
          (openDevice "/dev/video0" (World.start mapFailureThenQueueFailureDevice)).2).2).2) :=
  (C4_map_failure_releases_nothing 3
    (configureDevice 3 FORMAT_H264 320 240
      (openDevice "/dev/video0" (World.start mapFailureThenQueueFailureDevice)).2).2
    (captureFrames 3 (configureDevice 3 FORMAT_H264 320 240
      (openDevice "/dev/video0" (World.start mapFailureThenQueueFailureDevice)).2).2).2
    (some (-1)) 1 { call := Call.mmap 3 4096 4096, reply := Reply.failure ENOMEM }
    (by decide) (by decide) (by decide) (by decide)).2 rfl FORMAT_H264 320 240
    (openDevice "/dev/video0" (World.start mapFailureThenQueueFailureDevice)).2 (by decide)

/-- C6 (amended): when the device rejects the `VIDIOC_S_FMT` call, `configureDevice`
returns -1 in the world `xioctl` left: `bufferCount` and `frameBuffers` are as
before and every call issued is that `VIDIOC_S_FMT` (no `VIDIOC_REQBUFS`, no
`mmap`, no `close`); the program then ends with `EXIT_FAILURE` in the same world,
the descriptor still open. -/
theorem C6_rejected_format_leaves_handle_open (fd : Int) (format : String)
    (width height : Int) (w w1 : World) (r : Reply) (pixelformat : PixelFormat)
    (field : FieldOrder)
    (hsel : selectFormat (lowerFormat format) = some (pixelformat, field))
    (hfmt : xioctl fd (Request.VIDIOC_S_FMT pixelformat field (toU32 width) (toU32 height)) w =
      (some r, w1))
    (hr : r.ret = -1) :
    configureDevice fd format width height w = (some (-1), w1) ∧
    w1.bufferCount = w.bufferCount ∧ w1.frameBuffers = w.frameBuffers ∧
    (∀ e ∈ issued w w1,
      e.call = Call.ioctl fd
        (Request.VIDIOC_S_FMT pixelformat field (toU32 width) (toU32 height))) ∧
    runSession fd format width height w = (some EXIT_FAILURE, w1) ∧
    (∀ w0 : World, openDevice "/dev/video0" w0 = (some fd, w) → fd ≠ -1 →
      format = FORMAT_H264 → width = 320 → height = 240 →
      main w0 = (some EXIT_FAILURE, w1)) := by
  obtain ⟨hb, hf, _, evs, htr, _, hcall, _⟩ := xioctl_spec _ _ _ _ _ hfmt
  have hc : configureDevice fd format width height w = (some (-1), w1) := by
    simp [configureDevice, hsel, hfmt, hr]
  have hs : runSession fd format width height w = (some EXIT_FAILURE, w1) := by
    simp [runSession, hc]
  rw [issued_of_trace _ _ _ htr]
  refine ⟨hc, hb, hf, hcall, hs, ?_⟩
  intro w0 hopen hfd hformat hwidth hheight
  subst hformat hwidth hheight
  simp [main, hopen, hfd, hs]

/-- C6 (amended) against `rejectFormatDevice`: `"h264"` at 320 x 240 on descriptor 3. -/
theorem C6_rejected_format_leaves_handle_open_witness :
    main (World.start rejectFormatDevice) =
      (some EXIT_FAILURE,
        (xioctl 3 (Request.VIDIOC_S_FMT PixelFormat.V4L2_PIX_FMT_H264
            FieldOrder.V4L2_FIELD_INTERLACED 320 240)
          (openDevice "/dev/video0" (World.start rejectFormatDevice)).2).2) :=
  (C6_rejected_format_leaves_handle_open 3 FORMAT_H264 320 240
    (openDevice "/dev/video0" (World.start rejectFormatDevice)).2
    (xioctl 3 (Request.VIDIOC_S_FMT PixelFormat.V4L2_PIX_FMT_H264
        FieldOrder.V4L2_FIELD_INTERLACED 320 240)
      (openDevice "/dev/video0" (World.start rejectFormatDevice)).2).2
    (Reply.failure EINVAL) PixelFormat.V4L2_PIX_FMT_H264 FieldOrder.V4L2_FIELD_INTERLACED
    (by decide) (by decide) (by decide)).2.2.2.2.2
    (World.start rejectFormatDevice) (by decide) (by decide) rfl rfl rfl

/-- When `configureDevice` returns 0, the last call it issued is the
`VIDIOC_REQBUFS` request for 4 buffers, that call did not fail, and `bufferCount`
is the 32-bit count its response wrote back. -/
theorem configureDevice_success (fd : Int) (format : String) (width height : Int)
    (w w1 : World) (hc : configureDevice fd format width height w = (some 0, w1)) :
    ∃ pre rb, issued w w1 =
        pre ++ [{ call := Call.ioctl fd (Request.VIDIOC_REQBUFS 4), reply := rb }] ∧
      rb.ret ≠ -1 ∧ w1.bufferCount = u32 rb.count := by
  simp only [configureDevice] at hc
  split at hc
  · simp at hc
  · split at hc
    · simp at hc
    · rename_i r w1' hfmt
      obtain ⟨_, _, _, evs1, htr1, _, _, _⟩ := xioctl_spec _ _ _ _ _ hfmt
      split at hc
      · simp at hc
      · split at hc
        · simp at hc
        · rename_i rb w2 hreq
          obtain ⟨_, _, _, evs2, htr2, _, _, hlast⟩ := xioctl_spec _ _ _ _ _ hreq
          obtain ⟨_, pre2, hpre2, _⟩ := hlast rb rfl
          split at hc
          · simp at hc
          · rename_i hok
            simp only [Prod.mk.injEq, true_and] at hc
            subst hc
            refine ⟨evs1 ++ pre2, rb, ?_, hok, rfl⟩
            apply issued_of_trace
            simp [htr2, htr1, hpre2]
/-! ## The program is total -/

/-- The fuel of `xioctl` is enough: it is cut only when the responses ran out. -/
theorem xioctlLoop_cut (fd : Int) (req : Request) :
    ∀ (fuel : Nat) (w w' : World), w.script.length ≤ fuel →
      xioctlLoop fd req fuel w = (none, w') → w'.script = [] := by
  intro fuel
  induction fuel with
  | zero =>
    intro w w' hlen h
    simp only [xioctlLoop, Prod.mk.injEq, true_and] at h
    subst h
    exact List.length_eq_zero.mp (Nat.le_zero.mp hlen)
  | succ n ih =>
    intro w w' hlen h
    cases hs : w.script with
    | nil =>
      simp only [xioctlLoop, syscall_nil _ _ hs, Prod.mk.injEq, true_and] at h
      subst h
      exact hs
    | cons r rest =>
      simp only [xioctlLoop, syscall_cons _ _ _ _ hs] at h
      split at h
      · refine ih _ _ ?_ h
        rw [hs] at hlen
        simpa [respond_eq] using hlen
      · simp at h

theorem xioctl_cut (fd : Int) (req : Request) (w w' : World)
    (h : xioctl fd req w = (none, w')) : w'.script = [] :=
  xioctlLoop_cut fd req _ w w' (Nat.le_refl _) h

theorem xioctl_script_length (fd : Int) (req : Request) (w w' : World) (o : Option Reply)
    (h : xioctl fd req w = (o, w')) : w'.script.length ≤ w.script.length := by
  obtain ⟨_, _, _, evs, _, hs, _, _⟩ := xioctl_spec fd req w o w' h
  rw [hs]
  simp

/-- The fuel of the capture loop is enough: the loop is cut only when the responses
ran out, so `captureWhile` returns 0 unless the device stops answering. -/
theorem captureLoop_cut (fd : Int) :
    ∀ (fuel : Nat) (w w' : World), w.script.length < fuel →
      captureLoop fd fuel w = (none, w') → w'.script = [] := by
  intro fuel
  induction fuel with
  | zero => intro w w' hlen _; omega
  | succ n ih =>
    intro w w' hlen h
    rw [captureLoop] at h
    split at h
    · simp at h
    · cases hs : w.script with
      | nil =>
        simp only [syscall_nil _ _ hs, Prod.mk.injEq, true_and] at h
        subst h
        exact hs
      | cons r rest =>
        have hrest : rest.length < n := by
          rw [hs] at hlen
          simp only [List.length_cons] at hlen
          omega
        simp only [syscall_cons _ _ _ _ hs] at h
        have hw1 : (respond (Call.select fd) r { w with script := rest }).script = rest := by
          simp [respond_eq]
        split at h
        · exact ih _ _ (by rw [hw1]; exact hrest) h
        · split at h
          · rename_i w2 hdq
            simp only [Prod.mk.injEq, true_and] at h
            subst h
            exact xioctl_cut _ _ _ _ hdq
          · rename_i dq w2 hdq
            have h2 := xioctl_script_length _ _ _ _ _ hdq
            split at h
            · rename_i w3 hq
              simp only [Prod.mk.injEq, true_and] at h
              subst h
              exact xioctl_cut _ _ _ _ hq
            · rename_i x w3 hq
              have h3 := xioctl_script_length _ _ _ _ _ hq
              refine ih _ _ ?_ h
              rw [hw1] at h2
              omega

theorem captureWhile_cut (fd : Int) (w w' : World) (h : captureWhile fd w = (none, w')) :
    w'.script = [] :=
  captureLoop_cut fd _ w w' (Nat.lt_succ_self _) h

theorem syscall_cut (c : Call) (w w' : World) (h : syscall c w = (none, w')) :
    w'.script = [] := by
  cases hs : w.script with
  | nil =>
    simp only [syscall_nil _ _ hs, Prod.mk.injEq, true_and] at h
    subst h
    exact hs
  | cons r rest => simp [syscall_cons _ _ _ _ hs] at h

theorem captureStream_cut (fd : Int) (w w' : World) (h : captureStream fd w = (none, w')) :
    w'.script = [] := by
  simp only [captureStream] at h
  split at h
  · rename_i w1 hon
    simp only [Prod.mk.injEq, true_and] at h
    subst h
    exact xioctl_cut _ _ _ _ hon
  · split at h
    · simp at h
    · exact captureWhile_cut _ _ _ h

theorem captureSetup_cut (fd : Int) :
    ∀ (remaining i : Nat) (w w' : World),
      captureSetup fd remaining i w = (none, w') → w'.script = [] ∨ w'.fault ≠ none := by
  intro remaining
  induction remaining with
  | zero =>
    intro i w w' h
    rw [captureSetup] at h
    exact Or.inl (captureStream_cut _ _ _ h)
  | succ n ih =>
    intro i w w' h
    rw [captureSetup] at h
    split at h
    · rename_i w1 hq
      simp only [Prod.mk.injEq, true_and] at h
      subst h
      exact Or.inl (xioctl_cut _ _ _ _ hq)
    · split at h
      · simp at h
      · split at h
        · simp only [Prod.mk.injEq, true_and] at h
          subst h
          exact Or.inr (by simp)
        · split at h
          · simp only [Prod.mk.injEq, true_and] at h
            subst h
            exact Or.inr (by simp)
          · split at h
            · rename_i w2 hm
              simp only [Prod.mk.injEq, true_and] at h
              subst h
              exact Or.inl (syscall_cut _ _ _ hm)
            · split at h
              · rename_i w4 he
                simp only [Prod.mk.injEq, true_and] at h
                subst h
                exact Or.inl (xioctl_cut _ _ _ _ he)
              · split at h
                · simp at h
                · split at h
                  · simp only [Prod.mk.injEq, true_and] at h
                    subst h
                    exact Or.inr (by simp)
                  · exact ih _ _ _ h

theorem configureDevice_cut (fd : Int) (format : String) (width height : Int) (w w' : World)
    (h : configureDevice fd format width height w = (none, w')) : w'.script = [] := by
  simp only [configureDevice] at h
  split at h
  · simp at h
  · split at h
    · rename_i w1 hx
      simp only [Prod.mk.injEq, true_and] at h
      subst h
      exact xioctl_cut _ _ _ _ hx
    · split at h
      · simp at h
      · split at h
        · rename_i w2 hx
          simp only [Prod.mk.injEq, true_and] at h
          subst h
          exact xioctl_cut _ _ _ _ hx
        · split at h <;> simp at h

theorem shutdownUnmap_cut (fd : Int) :
    ∀ (remaining i : Nat) (w w' : World),
      shutdownUnmap fd remaining i w = (none, w') → w'.script = [] ∨ w'.fault ≠ none := by
  intro remaining
  induction remaining with
  | zero =>
    intro i w w' h
    rw [shutdownUnmap] at h
    split at h
    · rename_i w1 hx
      simp only [Prod.mk.injEq, true_and] at h
      subst h
      exact Or.inl (syscall_cut _ _ _ hx)
    · simp at h
  | succ n ih =>
    intro i w w' h
    rw [shutdownUnmap] at h
    split at h
    · simp only [Prod.mk.injEq, true_and] at h
      subst h
      exact Or.inr (by simp)
    · split at h
      · simp only [Prod.mk.injEq, true_and] at h
        subst h
        exact Or.inr (by simp)
      · split at h
        · rename_i w1 hx
          simp only [Prod.mk.injEq, true_and] at h
          subst h
          exact Or.inl (syscall_cut _ _ _ hx)
        · split at h
          · simp only [Prod.mk.injEq, true_and] at h
            subst h
            exact Or.inr (by simp)
          · exact ih _ _ _ h

theorem shutdownDevice_cut (fd : Int) (w w' : World)
    (h : shutdownDevice fd w = (none, w')) : w'.script = [] ∨ w'.fault ≠ none := by
  simp only [shutdownDevice] at h
  split at h
  · rename_i w1 hx
    simp only [Prod.mk.injEq, true_and] at h
    subst h
    exact Or.inl (xioctl_cut _ _ _ _ hx)
  · split at h
    · simp at h
    · exact shutdownUnmap_cut _ _ _ _ _ h

theorem runSession_cut (fd : Int) (format : String) (width height : Int) (w w' : World)
    (h : runSession fd format width height w = (none, w')) :
    w'.script = [] ∨ w'.fault ≠ none := by
  simp only [runSession] at h
  split at h
  · rename_i w1 hx
    simp only [Prod.mk.injEq, true_and] at h
    subst h
    exact Or.inl (configureDevice_cut _ _ _ _ _ _ hx)
  · split at h
    · simp at h
    · split at h
      · rename_i w2 hx
        simp only [Prod.mk.injEq, true_and] at h
        subst h
        exact captureSetup_cut _ _ _ _ _ hx
      · split at h
        · simp at h
        · split at h
          · rename_i w3 hx
            simp only [Prod.mk.injEq, true_and] at h
            subst h
            exact shutdownDevice_cut _ _ _ hx
          · split at h <;> simp at h

/-- The program is total: `main` returns an exit code unless the device stops
answering, in which case every response has been consumed, or the process is
killed, in which case the world says why. -/
theorem main_cut (w w' : World) (h : main w = (none, w')) :
    w'.script = [] ∨ w'.fault ≠ none := by
  simp only [main, openDevice] at h
  split at h
  · rename_i w1 hx
    split at hx
    · rename_i w0 hopen
      simp only [Prod.mk.injEq, true_and] at hx
      subst hx
      simp only [Prod.mk.injEq, true_and] at h
      subst h
      exact Or.inl (syscall_cut _ _ _ hopen)
    · split at hx
      · simp at hx
      · split at hx
        · rename_i w2 hq
          simp only [Prod.mk.injEq, true_and] at hx
          subst hx
          simp only [Prod.mk.injEq, true_and] at h
          subst h
          exact Or.inl (xioctl_cut _ _ _ _ hq)
        · split at hx <;> simp at hx
  · split at h
    · simp at h
    · exact runSession_cut _ _ _ _ _ _ h

/-! ## The obliging device -/

/-- A control call that the device answers without failure is issued once. -/
theorem xioctl_ok (fd : Int) (req : Request) (w : World) (r : Reply) (rest : List Reply)
    (hs : w.script = r :: rest) (hr : r.ret ≠ -1) :
    ∃ w', xioctl fd req w = (some r, w') ∧ w'.script = rest ∧
      w'.trace = w.trace ++ [{ call := Call.ioctl fd req, reply := r }] ∧
      w'.bufferCount = w.bufferCount ∧ w'.frameBuffers = w.frameBuffers ∧
      w'.terminate = (if SIGINT ∈ r.signals then TRUE else w.terminate) := by
  refine ⟨respond (Call.ioctl fd req) r { w with script := rest }, ?_, ?_⟩
  · rw [xioctl_cons fd req w r rest hs, if_neg (fun h => hr h.1)]
  · simp [respond_eq]

theorem syscall_ok (c : Call) (w : World) (r : Reply) (rest : List Reply)
    (hs : w.script = r :: rest) :
    ∃ w', syscall c w = (some r, w') ∧ w'.script = rest ∧
      w'.trace = w.trace ++ [{ call := c, reply := r }] ∧
      w'.bufferCount = w.bufferCount ∧ w'.frameBuffers = w.frameBuffers ∧
      w'.terminate = (if SIGINT ∈ r.signals then TRUE else w.terminate) := by
  refine ⟨respond c r { w with script := rest }, syscall_cons c w r rest hs, ?_⟩
  simp [respond_eq]

theorem issued_calls (w w' : World) (calls : List Call)
    (h : w'.trace.map Event.call = w.trace.map Event.call ++ calls) :
    (issued w w').map Event.call = calls := by
  have h1 := congrArg (List.drop (w.trace.map Event.call).length) h
  rw [List.drop_left] at h1
  rw [← h1]
  simp [issued]

theorem captureSetup_succ (fd : Int) (remaining i : Nat) (w : World) :
    captureSetup fd (remaining + 1) i w =
      match xioctl fd (Request.VIDIOC_QUERYBUF i) w with
      | (none, w1) => (none, w1)
      | (some q, w1) =>
        if q.ret = -1 then (some (-1), w1)
        else
          match w1.frameBuffers with
          | none => (none, { w1 with fault := some Fault.nullPointer })
          | some table =>
            match table[i]? with
            | none => (none, { w1 with fault := some Fault.outOfBounds })
            | some entry =>
              match syscall (Call.mmap fd (u32 q.length) (u32 q.offset))
                  { w1 with
                    frameBuffers :=
                      some (table.set i { data := entry.data, length := u32 q.length }) } with
              | (none, w2) => (none, w2)
              | (some m, w2) =>
                match xioctl fd (Request.VIDIOC_QBUF i)
                    { w2 with
                      frameBuffers :=
                        some (table.set i { data := m.ret, length := u32 q.length }) } with
                | (none, w4) => (none, w4)
                | (some e, w4) =>
                  if e.ret = -1 then (some (-1), w4)
                  else if i = INT_MAX then
                    (none, { w4 with fault := some Fault.signedOverflow })
                  else captureSetup fd remaining (i + 1) w4 := by
  rw [captureSetup]

/-- One round of the set-up against an obliging device, up to the increment of the
counter: the world it reaches. -/
theorem captureSetup_round (fd : Int) (length offset address : Nat → Nat)
    (remaining i : Nat) (w : World) (rest : List Reply) (table : List frameBuffer)
    (hs : w.script = Reply.describing (length i) (offset i) :: Reply.returning (address i) ::
      Reply.ok :: rest)
    (ht : w.frameBuffers = some table) (hi : i < table.length) :
    ∃ w', captureSetup fd (remaining + 1) i w =
        (if i = INT_MAX then (none, { w' with fault := some Fault.signedOverflow })
         else captureSetup fd remaining (i + 1) w') ∧
      w'.script = rest ∧
      w'.trace.map Event.call = w.trace.map Event.call ++
        [Call.ioctl fd (Request.VIDIOC_QUERYBUF i),
         Call.mmap fd (u32 (length i)) (u32 (offset i)),
         Call.ioctl fd (Request.VIDIOC_QBUF i)] ∧
      w'.terminate = w.terminate ∧ w'.bufferCount = w.bufferCount ∧
      w'.frameBuffers =
        some (table.set i { data := address i, length := u32 (length i) }) := by
  obtain ⟨w1, hx1, hs1, ht1, hb1, hf1, hterm1⟩ :=
    xioctl_ok fd (Request.VIDIOC_QUERYBUF i) w _ _ hs (by simp [Reply.describing, Reply.ok])
  have hentry : table[i]? = some table[i] := List.getElem?_eq_getElem hi
  obtain ⟨w2, hx2, hs2, ht2, hb2, hf2, hterm2⟩ :=
    syscall_ok (Call.mmap fd (u32 (length i)) (u32 (offset i)))
      { w1 with
        frameBuffers :=
          some (table.set i { data := table[i].data, length := u32 (length i) }) }
      _ _ hs1
  obtain ⟨w3, hx3, hs3, ht3, hb3, hf3, hterm3⟩ :=
    xioctl_ok fd (Request.VIDIOC_QBUF i)
      { w2 with
        frameBuffers := some (table.set i { data := address i, length := u32 (length i) }) }
      _ _ hs2 (by simp [Reply.ok])
  refine ⟨w3, ?_, hs3, ?_, ?_, ?_, ?_⟩
  · rw [captureSetup_succ, hx1]
    simp only [Reply.describing, Reply.returning, Reply.ok] at hx2 hx3 ⊢
    simp only [hf1, ht, hentry]
    simp only [hx2, hx3]
    simp
  · rw [ht3]
    simp [ht2, ht1]
  · rw [hterm3]
    simp [Reply.ok, Reply.returning, Reply.describing, hterm2, hterm1]
  · rw [hb3]
    simp [hb2, hb1]
  · rw [hf3]

/-- The set-up against an obliging device: `rounds` rounds of query, map, enqueue
that stay below `INT_MAX` and within the table. -/
theorem captureSetup_obliging (fd : Int) (length offset address : Nat → Nat) :
    ∀ (rounds more i : Nat) (w : World) (tail : List Reply) (table : List frameBuffer),
      w.script = (List.range' i rounds).flatMap (fun j =>
        [Reply.describing (length j) (offset j), Reply.returning (address j), Reply.ok]) ++ tail →
      w.frameBuffers = some table → i + rounds ≤ table.length → i + rounds ≤ INT_MAX →
      ∃ w', captureSetup fd (rounds + more) i w = captureSetup fd more (i + rounds) w' ∧
        w'.script = tail ∧
        w'.trace.map Event.call = w.trace.map Event.call ++
          (List.range' i rounds).flatMap (fun j =>
            [Call.ioctl fd (Request.VIDIOC_QUERYBUF j),
             Call.mmap fd (u32 (length j)) (u32 (offset j)),
             Call.ioctl fd (Request.VIDIOC_QBUF j)]) ∧
        w'.terminate = w.terminate ∧ w'.bufferCount = w.bufferCount ∧
        w'.frameBuffers = some ((List.range' i rounds).foldl
          (fun t j => t.set j { data := address j, length := u32 (length j) }) table) := by
  intro rounds
  induction rounds with
  | zero =>
    intro more i w tail table hs ht _ _
    exact ⟨w, by simp, by simpa using hs, by simp, rfl, rfl, by simpa using ht⟩
  | succ k ih =>
    intro more i w tail table hs ht hlen hmax
    rw [List.range'_succ] at hs
    simp only [List.flatMap_cons, List.cons_append, List.nil_append] at hs
    obtain ⟨w1, hrun, hs1, ht1, hterm1, hb1, hf1⟩ :=
      captureSetup_round fd length offset address (k + more) i w _ table hs ht (by omega)
    have hi : ¬ i = INT_MAX := by omega
    rw [if_neg hi] at hrun
    obtain ⟨w', hrec, hs', ht', hterm', hb', hf'⟩ :=
      ih more (i + 1) w1 tail _ hs1 hf1 (by simp; omega) (by omega)
    refine ⟨w', ?_, hs', ?_, hterm'.trans hterm1, hb'.trans hb1, ?_⟩
    · rw [show k + 1 + more = k + more + 1 by omega, hrun, hrec,
        show i + 1 + k = i + (k + 1) by omega]
    · rw [ht', ht1, List.range'_succ]
      simp
    · rw [hf', List.range'_succ, List.foldl_cons]
/-- The capture loop against an obliging device: `remaining` rounds of wait, dequeue,
enqueue, the flag being set during the last of them, after which the loop returns
0. -/
theorem captureLoop_obliging (fd : Int) (index : Nat → Nat) (n : Nat) :
    ∀ (remaining j : Nat) (w : World) (tail : List Reply) (fuel : Nat),
      j + remaining = n →
      w.script = (List.range' j remaining).flatMap (fun j =>
        [Reply.returning 1, Reply.delivering (index j),
         if j + 1 = n then Reply.ok.withSigint else Reply.ok]) ++ tail →
      (remaining = 0 → w.terminate ≠ 0) → (0 < remaining → w.terminate = 0) →
      w.script.length < fuel →
      ∃ w', captureLoop fd fuel w = (some 0, w') ∧ w'.script = tail ∧
        w'.trace.map Event.call = w.trace.map Event.call ++
          (List.range' j remaining).flatMap (fun j =>
            [Call.select fd, Call.ioctl fd Request.VIDIOC_DQBUF,
             Call.ioctl fd (Request.VIDIOC_QBUF (u32 (index j)))]) ∧
        w'.bufferCount = w.bufferCount ∧ w'.frameBuffers = w.frameBuffers := by
  intro remaining
  induction remaining with
  | zero =>
    intro j w tail fuel _ hs hset _ hfuel
    obtain ⟨f, rfl⟩ : ∃ f, fuel = f + 1 := ⟨fuel - 1, by omega⟩
    refine ⟨w, ?_, by simpa using hs, by simp, rfl, rfl⟩
    simp [captureLoop, hset rfl]
  | succ k ih =>
    intro j w tail fuel hj hs _ hclear hfuel
    obtain ⟨f, rfl⟩ : ∃ f, fuel = f + 1 := ⟨fuel - 1, by omega⟩
    have hterm : w.terminate = 0 := hclear (Nat.succ_pos k)
    rw [List.range'_succ] at hs
    simp only [List.flatMap_cons, List.cons_append, List.nil_append] at hs
    obtain ⟨w1, hx1, hs1, ht1, hb1, hf1, hterm1⟩ := syscall_ok (Call.select fd) w _ _ hs
    obtain ⟨w2, hx2, hs2, ht2, hb2, hf2, hterm2⟩ :=
      xioctl_ok fd Request.VIDIOC_DQBUF w1 _ _ hs1 (by simp [Reply.delivering, Reply.ok])
    have hq : (if j + 1 = n then Reply.ok.withSigint else Reply.ok).ret ≠ -1 := by
      split <;> simp [Reply.ok, Reply.withSigint]
    obtain ⟨w3, hx3, hs3, ht3, hb3, hf3, hterm3⟩ :=
      xioctl_ok fd (Request.VIDIOC_QBUF (u32 (index j))) w2 _ _ hs2 hq
    have hlen : w3.script.length < f := by
      rw [hs3]
      rw [hs] at hfuel
      simp only [List.length_cons] at hfuel
      omega
    have h2 : w2.terminate = 0 := by
      rw [hterm2, hterm1]
      simp [Reply.delivering, Reply.returning, Reply.ok, hterm]
    obtain ⟨w', hrec, hs', ht', hb', hf'⟩ := ih (j + 1) w3 tail f (by omega) hs3
      (by
        intro hk
        have hjn : j + 1 = n := by omega
        rw [hterm3]
        simp [hjn, Reply.withSigint, Reply.ok, TRUE])
      (by
        intro hk
        have hjn : ¬ j + 1 = n := by omega
        rw [hterm3]
        simp [hjn, Reply.ok, h2])
      hlen
    refine ⟨w', ?_, hs', ?_, ?_, ?_⟩
    · rw [captureLoop]
      simp only [hterm, hx1, hx2]
      simp only [Reply.returning, Reply.delivering, Reply.ok] at hx3 ⊢
      simp [hx3, hrec]
    · rw [ht', ht3, List.range'_succ]
      simp [ht2, ht1]
    · rw [hb', hb3, hb2, hb1]
    · rw [hf', hf3, hf2, hf1]

/-- The end of `shutdownDevice` against an obliging device: one `munmap` for each
remaining buffer, with the address and length the table holds for it, then
`close`. -/
theorem shutdownUnmap_obliging (fd : Int) (entry : Nat → frameBuffer) :
    ∀ (remaining i : Nat) (w : World) (tail : List Reply) (table : List frameBuffer),
      w.script = List.replicate remaining Reply.ok ++ Reply.ok :: tail →
      w.frameBuffers = some table →
      (∀ j, i ≤ j → j < i + remaining → table[j]? = some (entry j)) →
      i + remaining ≤ INT_MAX →
      ∃ w', shutdownUnmap fd remaining i w = (some 0, w') ∧ w'.script = tail ∧
        w'.trace.map Event.call = w.trace.map Event.call ++
          (List.range' i remaining).map (fun j =>
            Call.munmap (entry j).data (entry j).length) ++ [Call.close fd] := by
  intro remaining
  induction remaining with
  | zero =>
    intro i w tail table hs _ _ _
    simp only [List.replicate_zero, List.nil_append] at hs
    obtain ⟨w1, hx1, hs1, ht1, _, _, _⟩ := syscall_ok (Call.close fd) w _ _ hs
    exact ⟨w1, by simp [shutdownUnmap, hx1], hs1, by simp [ht1]⟩
  | succ k ih =>
    intro i w tail table hs ht hentry hmax
    rw [List.replicate_succ, List.cons_append] at hs
    obtain ⟨w1, hx1, hs1, ht1, _, hf1, _⟩ :=
      syscall_ok (Call.munmap (entry i).data (entry i).length) w _ _ hs
    obtain ⟨w', hrec, hs', ht'⟩ := ih (i + 1) w1 tail table hs1 (hf1.trans ht)
      (fun j h1 h2 => hentry j (by omega) (by omega)) (by omega)
    have hi : ¬ i = INT_MAX := by omega
    refine ⟨w', ?_, hs', ?_⟩
    · rw [shutdownUnmap]
      simp only [ht, hentry i (Nat.le_refl _) (by omega), hx1, if_neg hi]
      exact hrec
    · rw [ht', ht1, List.range'_succ]
      simp

theorem fill_length (length address : Nat → Nat) :
    ∀ (rounds i : Nat) (table : List frameBuffer),
      ((List.range' i rounds).foldl
        (fun t j => t.set j { data := address j, length := u32 (length j) }) table).length =
        table.length := by
  intro rounds
  induction rounds with
  | zero => intro i table; simp
  | succ k ih =>
    intro i table
    rw [List.range'_succ, List.foldl_cons, ih]
    simp

theorem fill_before (length address : Nat → Nat) :
    ∀ (rounds i : Nat) (table : List frameBuffer) (j : Nat), j < i →
      ((List.range' i rounds).foldl
        (fun t j => t.set j { data := address j, length := u32 (length j) }) table)[j]? =
        table[j]? := by
  intro rounds
  induction rounds with
  | zero => intro i table j _; simp
  | succ k ih =>
    intro i table j hj
    rw [List.range'_succ, List.foldl_cons, ih (i + 1) _ j (by omega)]
    exact List.getElem?_set_ne (by omega)

theorem fill_beyond (length address : Nat → Nat) :
    ∀ (rounds i : Nat) (table : List frameBuffer) (j : Nat), i + rounds ≤ j →
      ((List.range' i rounds).foldl
        (fun t j => t.set j { data := address j, length := u32 (length j) }) table)[j]? =
        table[j]? := by
  intro rounds
  induction rounds with
  | zero => intro i table j _; simp
  | succ k ih =>
    intro i table j hj
    rw [List.range'_succ, List.foldl_cons, ih (i + 1) _ j (by omega)]
    exact List.getElem?_set_ne (by omega)

theorem fill_at (length address : Nat → Nat) :
    ∀ (rounds i : Nat) (table : List frameBuffer) (j : Nat), i ≤ j → j < i + rounds →
      i + rounds ≤ table.length →
      ((List.range' i rounds).foldl
        (fun t j => t.set j { data := address j, length := u32 (length j) }) table)[j]? =
        some { data := address j, length := u32 (length j) } := by
  intro rounds
  induction rounds with
  | zero => intro i table j h1 h2 _; omega
  | succ k ih =>
    intro i table j h1 h2 hlen
    rw [List.range'_succ, List.foldl_cons]
    by_cases hji : j = i
    · subst hji
      rw [fill_before length address k (j + 1) _ j (by omega), List.getElem?_set]
      simp
      omega
    · exact ih (i + 1) _ j (by omega) (by omega) (by simp; omega)

theorem mappedTable_getElem? (length address : Nat → Nat) (N j : Nat) (hj : j < N) :
    (mappedTable length address N)[j]? =
      some { data := address j, length := u32 (length j) } := by
  simp [mappedTable, List.getElem?_range hj]

/-- The table the set-up leaves against an obliging device is `mappedTable`. -/
theorem fill_replicate (length address : Nat → Nat) (N : Nat) :
    (List.range' 0 N).foldl
      (fun t j => t.set j { data := address j, length := u32 (length j) })
      (List.replicate N { data := 0, length := 0 }) = mappedTable length address N := by
  apply List.ext_getElem?
  intro j
  by_cases hj : j < N
  · rw [fill_at length address N 0 _ j (Nat.zero_le _) (by omega) (by simp),
      mappedTable_getElem? length address N j hj]
  · rw [List.getElem?_eq_none (by rw [fill_length]; simp; omega),
      List.getElem?_eq_none (by simp [mappedTable]; omega)]

theorem withoutWaits_sessionCalls (fd : Int) (pixelformat : PixelFormat) (field : FieldOrder)
    (width height : Int) (length offset address index : Nat → Nat) (N n : Nat) :
    withoutWaits (sessionCalls fd pixelformat field width height length offset address index N n) =
      deviceOperations fd pixelformat field width height length offset address index N n := by
  simp [withoutWaits, sessionCalls, configureCalls, captureCalls, shutdownCalls,
    deviceOperations, List.filter_append, List.filter_flatMap, List.filter_map,
    Function.comp_def, List.filter_cons]

theorem xioctl_ok_heap (fd : Int) (req : Request) (w : World) (r : Reply) (rest : List Reply)
    (hs : w.script = r :: rest) (hr : r.ret ≠ -1) :
    (xioctl fd req w).2.heapExhausted = w.heapExhausted := by
  rw [xioctl_cons fd req w r rest hs, if_neg (fun h => hr h.1)]
  simp [respond_eq]

theorem u32_of_le (N : Nat) (h : N ≤ 2147483648) : u32 N = N := by
  unfold u32
  exact Nat.mod_eq_of_lt (by omega)

/-- The script of an obliging device, phase by phase. -/
theorem obligingDevice_eq (length offset address index : Nat → Nat) (N n : Nat) :
    obligingDevice length offset address index N n =
      Reply.ok :: Reply.granting N ::
        ((List.range' 0 N).flatMap (fun i =>
            [Reply.describing (length i) (offset i), Reply.returning (address i), Reply.ok]) ++
          ((if n = 0 then Reply.ok.withSigint else Reply.ok) ::
            ((List.range' 0 n).flatMap (fun j =>
                [Reply.returning 1, Reply.delivering (index j),
                 if j + 1 = n then Reply.ok.withSigint else Reply.ok]) ++
              (Reply.ok :: (List.replicate N Reply.ok ++ Reply.ok :: []))))) := by
  simp [obligingDevice, List.range_eq_range']

/-- `configureDevice` against an obliging device whose count fits the pool size. -/
theorem configureDevice_obliging (fd : Int) (format : String) (width height : Int)
    (pixelformat : PixelFormat) (field : FieldOrder) (N : Nat) (w : World)
    (tail : List Reply)
    (hsel : selectFormat (lowerFormat format) = some (pixelformat, field))
    (hheap : w.heapExhausted = false) (hN : N ≤ 2147483648)
    (hs : w.script = Reply.ok :: Reply.granting N :: tail) :
    ∃ w1, configureDevice fd format width height w = (some 0, w1) ∧ w1.script = tail ∧
      w1.trace.map Event.call = w.trace.map Event.call ++
        configureCalls fd pixelformat field width height ∧
      w1.terminate = w.terminate ∧ w1.bufferCount = N ∧
      w1.frameBuffers = some (List.replicate N { data := 0, length := 0 }) := by
  obtain ⟨wa, hxa, hsa, hta, _, _, hterma⟩ :=
    xioctl_ok fd (Request.VIDIOC_S_FMT pixelformat field (toU32 width) (toU32 height)) w _ _ hs
      (by simp [Reply.ok])
  obtain ⟨wb, hxb, hsb, htb, _, _, htermb⟩ :=
    xioctl_ok fd (Request.VIDIOC_REQBUFS 4) wa _ _ hsa (by simp [Reply.granting, Reply.ok])
  have hheapb : wb.heapExhausted = false := by
    have h1 := xioctl_ok_heap fd (Request.VIDIOC_S_FMT pixelformat field (toU32 width)
      (toU32 height)) w _ _ hs (by simp [Reply.ok])
    have h2 := xioctl_ok_heap fd (Request.VIDIOC_REQBUFS 4) wa _ _ hsa
      (by simp [Reply.granting, Reply.ok])
    rw [hxa] at h1
    rw [hxb] at h2
    simp only at h1 h2
    rw [h2, h1, hheap]
  refine ⟨{ wb with
      bufferCount := N,
      frameBuffers := some (List.replicate N { data := 0, length := 0 }) }, ?_, hsb, ?_, ?_,
    rfl, rfl⟩
  · simp [configureDevice, hsel, hxa, hxb, hheapb, Reply.ok, Reply.granting, u32_of_le N hN]
  · simp [htb, hta, configureCalls]
  · simp [htermb, hterma, Reply.granting, Reply.ok]
/-- A whole session against an obliging device, phase by phase: what each of
`configureDevice`, `captureFrames` and `shutdownDevice` returns, the pool it
leaves, and the calls it issues. -/
theorem session_obliging (fd : Int) (format : String) (width height : Int)
    (pixelformat : PixelFormat) (field : FieldOrder) (length offset address index : Nat → Nat)
    (N n : Nat) (w : World)
    (hsel : selectFormat (lowerFormat format) = some (pixelformat, field))
    (hterm : w.terminate = FALSE) (hheap : w.heapExhausted = false) (hN : N ≤ INT_MAX)
    (hscript : w.script = obligingDevice length offset address index N n) :
    ∃ w1 w2 w3,
      configureDevice fd format width height w = (some 0, w1) ∧
      w1.bufferCount = N ∧
      w1.frameBuffers = some (List.replicate N { data := 0, length := 0 }) ∧
      w1.trace.map Event.call = w.trace.map Event.call ++
        configureCalls fd pixelformat field width height ∧
      captureFrames fd w1 = (some 0, w2) ∧
      w2.bufferCount = N ∧
      w2.frameBuffers = some (mappedTable length address N) ∧
      w2.trace.map Event.call = w1.trace.map Event.call ++
        captureCalls fd length offset index N n ∧
      shutdownDevice fd w2 = (some 0, w3) ∧
      w3.trace.map Event.call = w2.trace.map Event.call ++ shutdownCalls fd length address N ∧
      w3.script = [] := by
  have hN1 : N ≤ 2147483648 := by
    unfold INT_MAX at hN
    omega
  rw [obligingDevice_eq] at hscript
  obtain ⟨w1, hconf, hs1, ht1, hterm1, hb1, hf1⟩ :=
    configureDevice_obliging fd format width height pixelformat field N w _ hsel hheap hN1
      hscript
  obtain ⟨wd, hxd, hsd, htd, htermd, hbd, hfd⟩ :=
    captureSetup_obliging fd length offset address N 0 0 w1 _ _ hs1 hf1 (by simp) (by omega)
  have hson : (if n = 0 then Reply.ok.withSigint else Reply.ok).ret ≠ -1 := by
    split <;> simp [Reply.ok, Reply.withSigint]
  obtain ⟨we, hxe, hse, hte, hbe, hfe, hterme⟩ :=
    xioctl_ok fd Request.VIDIOC_STREAMON wd _ _ hsd hson
  have hwd : wd.terminate = 0 := by
    rw [htermd, hterm1, hterm]
    rfl
  obtain ⟨wf, hxf, hsf, htf, hbf, hff⟩ :=
    captureLoop_obliging fd index n n 0 we _ (we.script.length + 1) (by omega) hse
      (by
        intro hn
        rw [hterme]
        simp [hn, Reply.withSigint, Reply.ok, TRUE])
      (by
        intro hn
        have hn0 : ¬ n = 0 := by omega
        rw [hterme]
        simp [hn0, Reply.ok, hwd])
      (Nat.lt_succ_self _)
  have hcap : captureFrames fd w1 = (some 0, wf) := by
    have h0 : captureSetup fd 0 (0 + N) wd = captureStream fd wd := by rw [captureSetup]
    simp only [captureFrames, hb1]
    rw [show N = N + 0 from rfl, hxd, h0, captureStream, hxe]
    simp only [if_neg hson, captureWhile]
    exact hxf
  have htable : wf.frameBuffers = some (mappedTable length address N) := by
    rw [hff, hfe, hfd, fill_replicate]
  obtain ⟨wg, hxg, hsg, htg, hbg, hfg, _⟩ :=
    xioctl_ok fd Request.VIDIOC_STREAMOFF wf _ _ hsf (by simp [Reply.ok])
  have hNf : wf.bufferCount = N := by
    rw [hbf, hbe, hbd, hb1]
  obtain ⟨wh, hxh, hsh, hth⟩ :=
    shutdownUnmap_obliging fd (fun j => { data := address j, length := u32 (length j) })
      N 0 wg [] (mappedTable length address N) hsg (hfg.trans htable)
      (fun j _ hj => mappedTable_getElem? length address N j (by omega)) (by omega)
  have hshut : shutdownDevice fd wf = (some 0, wh) := by
    simp only [shutdownDevice, hxg]
    simp only [Reply.ok] at hxh ⊢
    simp [hbg, hNf, hxh]
  refine ⟨w1, wf, wh, hconf, hb1, hf1, ht1, hcap, hNf, htable, ?_, hshut, ?_, hsh⟩
  · rw [htf, hte, List.map_append, htd]
    simp [captureCalls, List.range_eq_range']
  · rw [hth, htg]
    simp [shutdownCalls, List.range_eq_range']

/-- A whole session against an obliging device that grants `INT_MAX + 1` buffers: the
set-up runs `INT_MAX + 1` rounds and then increments the `int` counter that holds
`INT_MAX`; the run leaves the behaviour the C language defines before stream-on. -/
theorem session_overflow (fd : Int) (format : String) (width height : Int)
    (pixelformat : PixelFormat) (field : FieldOrder) (length offset address index : Nat → Nat)
    (N n : Nat) (w : World)
    (hsel : selectFormat (lowerFormat format) = some (pixelformat, field))
    (hheap : w.heapExhausted = false) (hN : N = 2147483648)
    (hscript : w.script = obligingDevice length offset address index N n) :
    (runSession fd format width height w).1 = none ∧
    (runSession fd format width height w).2.fault = some Fault.signedOverflow := by
  obtain ⟨M, hM⟩ : ∃ M, N = M + 1 := ⟨2147483647, hN⟩
  have hMmax : M = INT_MAX := by
    unfold INT_MAX
    omega
  rw [obligingDevice_eq] at hscript
  obtain ⟨w1, hconf, hs1, _, _, hb1, hf1⟩ :=
    configureDevice_obliging fd format width height pixelformat field N w _ hsel hheap
      (by omega) hscript
  rw [hM, List.range'_concat, List.flatMap_append, List.append_assoc] at hs1
  simp only [List.flatMap_cons, List.flatMap_nil, List.append_nil, List.cons_append,
    List.nil_append, Nat.zero_add, Nat.one_mul] at hs1
  obtain ⟨wd, hxd, hsd, _, _, _, hfd⟩ :=
    captureSetup_obliging fd length offset address M 1 0 w1 _ _ hs1 hf1
      (by simp; omega) (by omega)
  obtain ⟨we, hxe, _⟩ :=
    captureSetup_round fd length offset address 0 M wd _ _ hsd hfd
      (by rw [fill_length]; simp; omega)
  have hcap : captureFrames fd w1 =
      (none, { we with fault := some Fault.signedOverflow }) := by
    simp only [captureFrames, hb1]
    rw [hM, hxd, Nat.zero_add, hxe, if_pos hMmax]
  simp [runSession, hconf, hcap]

/-- C1 (amended): against a device for which every call succeeds, which grants
`N ≤ INT_MAX` buffers and has a frame ready `n` times, with memory for the buffer
table and the flag `terminate` becoming true after the `n`-th round of the capture
loop, the session (`configureDevice`, then `captureFrames`, then `shutdownDevice`)
ends with `EXIT_SUCCESS` having consumed every response, and the device
operations it issued are exactly, in order: set-format, request-buffers, then
query-buffer `i`, map, enqueue `i` for `i = 0, …, N - 1`, then stream-on once, then
`n` pairs of dequeue and enqueue, then stream-off once, then one unmap of each of
the `N` buffers, then close.  With the readiness waits counted, each pair is
preceded by one `select`.  So every map comes before stream-on and every unmap
after stream-off. -/
theorem C1_session_call_sequence (fd : Int) (format : String) (width height : Int)
    (pixelformat : PixelFormat) (field : FieldOrder) (length offset address index : Nat → Nat)
    (N n : Nat) (w : World)
    (hsel : selectFormat (lowerFormat format) = some (pixelformat, field))
    (hterm : w.terminate = FALSE) (hheap : w.heapExhausted = false) (hN : N ≤ INT_MAX)
    (hscript : w.script = obligingDevice length offset address index N n) :
    (runSession fd format width height w).1 = some EXIT_SUCCESS ∧
    (runSession fd format width height w).2.script = [] ∧
    withoutWaits ((issued w (runSession fd format width height w).2).map Event.call) =
      deviceOperations fd pixelformat field width height length offset address index N n ∧
    (issued w (runSession fd format width height w).2).map Event.call =
      sessionCalls fd pixelformat field width height length offset address index N n := by
  obtain ⟨w1, w2, w3, hconf, _, _, ht1, hcap, _, _, ht2, hshut, ht3, hs3⟩ :=
    session_obliging fd format width height pixelformat field length offset address index N n w
      hsel hterm hheap hN hscript
  have hrun : runSession fd format width height w = (some EXIT_SUCCESS, w3) := by
    simp [runSession, hconf, hcap, hshut, EXIT_SUCCESS]
  have hissued : (issued w w3).map Event.call =
      sessionCalls fd pixelformat field width height length offset address index N n := by
    apply issued_calls
    rw [ht3, ht2, ht1]
    simp [sessionCalls]
  rw [hrun]
  refine ⟨rfl, hs3, ?_, hissued⟩
  show withoutWaits ((issued w w3).map Event.call) = _
  rw [hissued, withoutWaits_sessionCalls]

/-- C1 (amended) at the device of the scenario: `"mjpeg"` at 320 x 240, 4 buffers
granted, 3 ready cycles. -/
theorem C1_session_call_sequence_witness :
    (runSession 3 FORMAT_MJPEG 320 240
        (World.start (obligingDevice (fun _ => 4096) (fun i => 4096 * i)
          (fun i => 40960 + 4096 * i) (fun j => j % 4) 4 3))).1 = some EXIT_SUCCESS ∧
    withoutWaits ((issued
        (World.start (obligingDevice (fun _ => 4096) (fun i => 4096 * i)
          (fun i => 40960 + 4096 * i) (fun j => j % 4) 4 3))
        (runSession 3 FORMAT_MJPEG 320 240
          (World.start (obligingDevice (fun _ => 4096) (fun i => 4096 * i)
            (fun i => 40960 + 4096 * i) (fun j => j % 4) 4 3))).2).map Event.call) =
      [Call.ioctl 3 (Request.VIDIOC_S_FMT PixelFormat.V4L2_PIX_FMT_MJPEG
          FieldOrder.V4L2_FIELD_NONE 320 240),
       Call.ioctl 3 (Request.VIDIOC_REQBUFS 4),
       Call.ioctl 3 (Request.VIDIOC_QUERYBUF 0), Call.mmap 3 4096 0,
       Call.ioctl 3 (Request.VIDIOC_QBUF 0),
       Call.ioctl 3 (Request.VIDIOC_QUERYBUF 1), Call.mmap 3 4096 4096,
       Call.ioctl 3 (Request.VIDIOC_QBUF 1),
       Call.ioctl 3 (Request.VIDIOC_QUERYBUF 2), Call.mmap 3 4096 8192,
       Call.ioctl 3 (Request.VIDIOC_QBUF 2),
       Call.ioctl 3 (Request.VIDIOC_QUERYBUF 3), Call.mmap 3 4096 12288,
       Call.ioctl 3 (Request.VIDIOC_QBUF 3),
       Call.ioctl 3 Request.VIDIOC_STREAMON,
       Call.ioctl 3 Request.VIDIOC_DQBUF, Call.ioctl 3 (Request.VIDIOC_QBUF 0),
       Call.ioctl 3 Request.VIDIOC_DQBUF, Call.ioctl 3 (Request.VIDIOC_QBUF 1),
       Call.ioctl 3 Request.VIDIOC_DQBUF, Call.ioctl 3 (Request.VIDIOC_QBUF 2),
       Call.ioctl 3 Request.VIDIOC_STREAMOFF,
       Call.munmap 40960 4096, Call.munmap 45056 4096, Call.munmap 49152 4096,
       Call.munmap 53248 4096,
       Call.close 3] :=
  have h := C1_session_call_sequence 3 FORMAT_MJPEG 320 240 PixelFormat.V4L2_PIX_FMT_MJPEG
    FieldOrder.V4L2_FIELD_NONE (fun _ => 4096) (fun i => 4096 * i) (fun i => 40960 + 4096 * i)
    (fun j => j % 4) 4 3
    (World.start (obligingDevice (fun _ => 4096) (fun i => 4096 * i)
      (fun i => 40960 + 4096 * i) (fun j => j % 4) 4 3))
    (by decide) rfl rfl (by decide) rfl
  ⟨h.1, h.2.2.1.trans (by decide)⟩
/-- C1 (counterexample): every device call succeeds, and yet the claimed sequence is
not issued.  With memory exhausted `calloc` returns the null pointer, which
`configureDevice` does not check: in the scenario (4 buffers granted, 3 ready
cycles) the process is killed by the first write to the buffer table, after
set-format, request-buffers and query-buffer 0.  And when the device grants
`INT_MAX + 1` buffers, the `int` counter of the set-up is incremented past
`INT_MAX` and the run never reaches stream-on. -/
theorem C1_unchecked_pool_counterexample :
    (runSession 3 FORMAT_MJPEG 320 240
        (World.startExhausted (obligingDevice (fun _ => 4096) (fun i => 4096 * i)
          (fun i => 40960 + 4096 * i) (fun j => j % 4) 4 3))).1 = none ∧
    (runSession 3 FORMAT_MJPEG 320 240
        (World.startExhausted (obligingDevice (fun _ => 4096) (fun i => 4096 * i)
          (fun i => 40960 + 4096 * i) (fun j => j % 4) 4 3))).2.fault =
      some Fault.nullPointer ∧
    (runSession 3 FORMAT_MJPEG 320 240
        (World.startExhausted (obligingDevice (fun _ => 4096) (fun i => 4096 * i)
          (fun i => 40960 + 4096 * i) (fun j => j % 4) 4 3))).2.trace.map Event.call =
      [Call.ioctl 3 (Request.VIDIOC_S_FMT PixelFormat.V4L2_PIX_FMT_MJPEG
          FieldOrder.V4L2_FIELD_NONE 320 240),
       Call.ioctl 3 (Request.VIDIOC_REQBUFS 4),
       Call.ioctl 3 (Request.VIDIOC_QUERYBUF 0)] ∧
    (runSession 3 FORMAT_MJPEG 320 240
        (World.start (obligingDevice (fun _ => 4096) (fun i => 4096 * i)
          (fun i => 40960 + 4096 * i) (fun j => j % 4) 2147483648 3))).1 = none ∧
    (runSession 3 FORMAT_MJPEG 320 240
        (World.start (obligingDevice (fun _ => 4096) (fun i => 4096 * i)
          (fun i => 40960 + 4096 * i) (fun j => j % 4) 2147483648 3))).2.fault =
      some Fault.signedOverflow :=
  have h := session_overflow 3 FORMAT_MJPEG 320 240 PixelFormat.V4L2_PIX_FMT_MJPEG
    FieldOrder.V4L2_FIELD_NONE (fun _ => 4096) (fun i => 4096 * i) (fun i => 40960 + 4096 * i)
    (fun j => j % 4) 2147483648 3
    (World.start (obligingDevice (fun _ => 4096) (fun i => 4096 * i)
      (fun i => 40960 + 4096 * i) (fun j => j % 4) 2147483648 3))
    (by decide) rfl rfl rfl
  ⟨by decide, by decide, by decide, h.1, h.2⟩

/-- C7 (amended): whatever the device answers, when `configureDevice` returns 0 the
pool size `bufferCount` is the 32-bit count written back in answer to
`VIDIOC_REQBUFS` (requested: 4).  Against a device for which every call succeeds
and which grants `c ≤ INT_MAX` buffers, with memory for the buffer table:
`configureDevice` returns 0 and leaves `bufferCount = c` and a table of `c` zeroed
entries; `captureFrames` then returns 0, having queried, mapped (with the length
and offset the device described) and enqueued exactly the indices `0, …, c - 1` in
order before stream-on and none after it, and leaves `bufferCount = c` and in
entry `i` of the table the address and length of buffer `i`; `shutdownDevice` then
returns 0, having issued stream-off, exactly one unmap for each of the `c` entries
with that address and length, and close. -/
theorem C7_pool_size_is_granted_count (fd : Int) (format : String) (width height : Int)
    (pixelformat : PixelFormat) (field : FieldOrder) (length offset address index : Nat → Nat)
    (c n : Nat) (w : World)
    (hsel : selectFormat (lowerFormat format) = some (pixelformat, field))
    (hterm : w.terminate = FALSE) (hheap : w.heapExhausted = false) (hc : c ≤ INT_MAX)
    (hscript : w.script = obligingDevice length offset address index c n) :
    (∃ w1 w2 w3,
      configureDevice fd format width height w = (some 0, w1) ∧
      w1.bufferCount = c ∧
      w1.frameBuffers = some (List.replicate c { data := 0, length := 0 }) ∧
      captureFrames fd w1 = (some 0, w2) ∧
      w2.bufferCount = c ∧
      w2.frameBuffers = some (mappedTable length address c) ∧
      (issued w1 w2).map Event.call = captureCalls fd length offset index c n ∧
      shutdownDevice fd w2 = (some 0, w3) ∧
      (issued w2 w3).map Event.call = shutdownCalls fd length address c) ∧
    (∀ (fd' : Int) (format' : String) (width' height' : Int) (u u1 : World),
      configureDevice fd' format' width' height' u = (some 0, u1) →
      ∃ pre rb, issued u u1 =
          pre ++ [{ call := Call.ioctl fd' (Request.VIDIOC_REQBUFS 4), reply := rb }] ∧
        rb.ret ≠ -1 ∧ u1.bufferCount = u32 rb.count) := by
  obtain ⟨w1, w2, w3, hconf, hb1, hf1, _, hcap, hb2, hf2, ht2, hshut, ht3, _⟩ :=
    session_obliging fd format width height pixelformat field length offset address index c n w
      hsel hterm hheap hc hscript
  exact ⟨⟨w1, w2, w3, hconf, hb1, hf1, hcap, hb2, hf2, issued_calls _ _ _ ht2, hshut,
    issued_calls _ _ _ ht3⟩, configureDevice_success⟩

/-- C7 (amended) at a device that grants 2 buffers for the 4 requested and has one
frame ready. -/
theorem C7_pool_size_is_granted_count_witness :
    ∃ w1 w2 w3,
      configureDevice 3 FORMAT_MJPEG 320 240
          (World.start (obligingDevice (fun _ => 4096) (fun i => 4096 * i)
            (fun i => 40960 + 4096 * i) (fun _ => 1) 2 1)) = (some 0, w1) ∧
      w1.bufferCount = 2 ∧
      w1.frameBuffers = some [{ data := 0, length := 0 }, { data := 0, length := 0 }] ∧
      captureFrames 3 w1 = (some 0, w2) ∧
      w2.bufferCount = 2 ∧
      w2.frameBuffers =
        some [{ data := 40960, length := 4096 }, { data := 45056, length := 4096 }] ∧
      (issued w1 w2).map Event.call =
        [Call.ioctl 3 (Request.VIDIOC_QUERYBUF 0), Call.mmap 3 4096 0,
         Call.ioctl 3 (Request.VIDIOC_QBUF 0),
         Call.ioctl 3 (Request.VIDIOC_QUERYBUF 1), Call.mmap 3 4096 4096,
         Call.ioctl 3 (Request.VIDIOC_QBUF 1),
         Call.ioctl 3 Request.VIDIOC_STREAMON,
         Call.select 3, Call.ioctl 3 Request.VIDIOC_DQBUF,
         Call.ioctl 3 (Request.VIDIOC_QBUF 1)] ∧
      shutdownDevice 3 w2 = (some 0, w3) ∧
      (issued w2 w3).map Event.call =
        [Call.ioctl 3 Request.VIDIOC_STREAMOFF, Call.munmap 40960 4096,
         Call.munmap 45056 4096, Call.close 3] :=
  (C7_pool_size_is_granted_count 3 FORMAT_MJPEG 320 240 PixelFormat.V4L2_PIX_FMT_MJPEG
    FieldOrder.V4L2_FIELD_NONE (fun _ => 4096) (fun i => 4096 * i) (fun i => 40960 + 4096 * i)
    (fun _ => 1) 2 1
    (World.start (obligingDevice (fun _ => 4096) (fun i => 4096 * i)
      (fun i => 40960 + 4096 * i) (fun _ => 1) 2 1))
    (by decide) rfl rfl (by decide) rfl).1

/-- C7 (counterexample): `configureDevice` returns 0 with `bufferCount` equal to the
granted count, and yet `captureFrames` does not query, map and enqueue the
indices below it.  Against `twoBufferDevice` with memory exhausted the table is
the null pointer and the process is killed after query-buffer 0, before any
`mmap`.  Against `queryFailureDevice` the query of buffer 1 fails and
`captureFrames` returns -1 with buffer 1 neither mapped nor enqueued.  And when the
device grants `INT_MAX + 1` buffers, the `int` counter of the set-up is incremented
past `INT_MAX`: the session does not return. -/
theorem C7_unchecked_pool_counterexample :
    (configureDevice 3 FORMAT_MJPEG 320 240 (World.start queryFailureDevice)).1 = some 0 ∧
    (configureDevice 3 FORMAT_MJPEG 320 240 (World.start queryFailureDevice)).2.bufferCount =
      2 ∧
    (captureFrames 3 (configureDevice 3 FORMAT_MJPEG 320 240
      (World.start queryFailureDevice)).2).1 = some (-1) ∧
    (issued (configureDevice 3 FORMAT_MJPEG 320 240 (World.start queryFailureDevice)).2
        (captureFrames 3 (configureDevice 3 FORMAT_MJPEG 320 240
          (World.start queryFailureDevice)).2).2).map Event.call =
      [Call.ioctl 3 (Request.VIDIOC_QUERYBUF 0), Call.mmap 3 4096 0,
       Call.ioctl 3 (Request.VIDIOC_QBUF 0), Call.ioctl 3 (Request.VIDIOC_QUERYBUF 1)] ∧
    (configureDevice 3 FORMAT_MJPEG 320 240 (World.startExhausted twoBufferDevice)).1 =
      some 0 ∧
    (configureDevice 3 FORMAT_MJPEG 320 240
      (World.startExhausted twoBufferDevice)).2.bufferCount = 2 ∧
    (configureDevice 3 FORMAT_MJPEG 320 240
      (World.startExhausted twoBufferDevice)).2.frameBuffers = none ∧
    (captureFrames 3 (configureDevice 3 FORMAT_MJPEG 320 240
      (World.startExhausted twoBufferDevice)).2).1 = none ∧
    (captureFrames 3 (configureDevice 3 FORMAT_MJPEG 320 240
      (World.startExhausted twoBufferDevice)).2).2.fault = some Fault.nullPointer ∧
    (issued (configureDevice 3 FORMAT_MJPEG 320 240 (World.startExhausted twoBufferDevice)).2
        (captureFrames 3 (configureDevice 3 FORMAT_MJPEG 320 240
          (World.startExhausted twoBufferDevice)).2).2).map Event.call =
      [Call.ioctl 3 (Request.VIDIOC_QUERYBUF 0)] ∧
    (runSession 3 FORMAT_H264 640 480
        (World.start (obligingDevice (fun _ => 8192) (fun i => 8192 * i)
          (fun i => 81920 + 8192 * i) (fun _ => 0) 2147483648 0))).1 = none ∧
    (runSession 3 FORMAT_H264 640 480
        (World.start (obligingDevice (fun _ => 8192) (fun i => 8192 * i)
          (fun i => 81920 + 8192 * i) (fun _ => 0) 2147483648 0))).2.fault =
      some Fault.signedOverflow :=
  have h := session_overflow 3 FORMAT_H264 640 480 PixelFormat.V4L2_PIX_FMT_H264
    FieldOrder.V4L2_FIELD_INTERLACED (fun _ => 8192) (fun i => 8192 * i)
    (fun i => 81920 + 8192 * i) (fun _ => 0) 2147483648 0
    (World.start (obligingDevice (fun _ => 8192) (fun i => 8192 * i)
      (fun i => 81920 + 8192 * i) (fun _ => 0) 2147483648 0))
    (by decide) rfl rfl rfl
  ⟨by decide, by decide, by decide, by decide, by decide, by decide, by decide, by decide,
    by decide, by decide, h.1, h.2⟩
/-! ## Runs against the fake devices -/

/-- C2 (defect of the code): a readiness wait that times out is not skipped.  Against
`timeoutDevice` both rounds of the capture loop have `select` return 0, and in
both the program still issues `VIDIOC_DQBUF` (which fails) and then `VIDIOC_QBUF`
of index 0; the loop stops at the third check of the flag having issued two
dequeue calls, not zero. -/
theorem C2_timeout_round_still_dequeues :
    (main (World.start timeoutDevice)).1 = some EXIT_SUCCESS ∧
    (main (World.start timeoutDevice)).2.trace.map (fun e => (e.call, e.reply.ret)) =
      [(Call.openDev "/dev/video0", 3),
       (Call.ioctl 3 Request.VIDIOC_QUERYCAP, 0),
       (Call.ioctl 3 (Request.VIDIOC_S_FMT PixelFormat.V4L2_PIX_FMT_H264
          FieldOrder.V4L2_FIELD_INTERLACED 320 240), 0),
       (Call.ioctl 3 (Request.VIDIOC_REQBUFS 4), 0),
       (Call.ioctl 3 (Request.VIDIOC_QUERYBUF 0), 0),
       (Call.mmap 3 4096 0, 40960),
       (Call.ioctl 3 (Request.VIDIOC_QBUF 0), 0),
       (Call.ioctl 3 Request.VIDIOC_STREAMON, 0),
       (Call.select 3, 0),
       (Call.ioctl 3 Request.VIDIOC_DQBUF, -1),
       (Call.ioctl 3 (Request.VIDIOC_QBUF 0), -1),
       (Call.select 3, 0),
       (Call.ioctl 3 Request.VIDIOC_DQBUF, -1),
       (Call.ioctl 3 (Request.VIDIOC_QBUF 0), -1),
       (Call.ioctl 3 Request.VIDIOC_STREAMOFF, 0),
       (Call.munmap 40960 4096, 0),
       (Call.close 3, 0)] ∧
    ((main (World.start timeoutDevice)).2.trace.filter
        (fun e => e.call = Call.ioctl 3 Request.VIDIOC_DQBUF)).length = 2 := by
  decide

/-- C3 (defect of the code): a buffer is enqueued although it was never dequeued.
Against `failedDequeueDevice` the set-up enqueues index 0, the only dequeue of the
run fails, and the capture loop then enqueues index 0 again: two enqueues of the
same index with no successful dequeue between them. -/
theorem C3_enqueue_after_failed_dequeue :
    (main (World.start failedDequeueDevice)).1 = some EXIT_SUCCESS ∧
    (main (World.start failedDequeueDevice)).2.trace.map (fun e => (e.call, e.reply.ret)) =
      [(Call.openDev "/dev/video0", 3),
       (Call.ioctl 3 Request.VIDIOC_QUERYCAP, 0),
       (Call.ioctl 3 (Request.VIDIOC_S_FMT PixelFormat.V4L2_PIX_FMT_H264
          FieldOrder.V4L2_FIELD_INTERLACED 320 240), 0),
       (Call.ioctl 3 (Request.VIDIOC_REQBUFS 4), 0),
       (Call.ioctl 3 (Request.VIDIOC_QUERYBUF 0), 0),
       (Call.mmap 3 4096 0, 40960),
       (Call.ioctl 3 (Request.VIDIOC_QBUF 0), 0),
       (Call.ioctl 3 Request.VIDIOC_STREAMON, 0),
       (Call.select 3, 1),
       (Call.ioctl 3 Request.VIDIOC_DQBUF, -1),
       (Call.ioctl 3 (Request.VIDIOC_QBUF 0), 0),
       (Call.ioctl 3 Request.VIDIOC_STREAMOFF, 0),
       (Call.munmap 40960 4096, 0),
       (Call.close 3, 0)] := by
  decide

/-- C10 (defect of the code): the format string is lower-cased from its third
character on only, so `"MJPEG"` becomes `"MJpeg"` and `"H264"` stays `"H264"`;
neither matches a supported name, and `configureDevice` returns -1 for both without
issuing a call, while `"mjPEG"` and `"h264"` are accepted. -/
theorem C10_upper_case_format_rejected :
    lowerFormat "MJPEG" = "MJpeg" ∧ lowerFormat "H264" = "H264" ∧
    configureDevice 3 "MJPEG" 320 240 (World.start [Reply.ok, Reply.granting 4]) =
      (some (-1), World.start [Reply.ok, Reply.granting 4]) ∧
    configureDevice 3 "H264" 320 240 (World.start [Reply.ok, Reply.granting 4]) =
      (some (-1), World.start [Reply.ok, Reply.granting 4]) ∧
    selectFormat (lowerFormat "mjPEG") =
      some (PixelFormat.V4L2_PIX_FMT_MJPEG, FieldOrder.V4L2_FIELD_NONE) ∧
    (configureDevice 3 "h264" 320 240 (World.start [Reply.ok, Reply.granting 4])).1 =
      some 0 := by
  decide

/-- C4 (counterexample): the `mmap` of buffer 1 of 3 fails.  Against
`mapFailureDevice` the program carries on: it enqueues buffer 1, queries, maps and
enqueues buffer 2, switches streaming on, and `captureFrames` returns 0 (the
program ends with `EXIT_SUCCESS`).  Against
`mapFailureThenQueueFailureDevice`, where a later call of the set-up fails, the
program ends with `EXIT_FAILURE` having issued no `munmap` and no `close`. -/
theorem C4_map_failure_counterexample :
    (main (World.start mapFailureDevice)).1 = some EXIT_SUCCESS ∧
    (main (World.start mapFailureDevice)).2.trace.map (fun e => (e.call, e.reply.ret)) =
      [(Call.openDev "/dev/video0", 3),
       (Call.ioctl 3 Request.VIDIOC_QUERYCAP, 0),
       (Call.ioctl 3 (Request.VIDIOC_S_FMT PixelFormat.V4L2_PIX_FMT_H264
          FieldOrder.V4L2_FIELD_INTERLACED 320 240), 0),
       (Call.ioctl 3 (Request.VIDIOC_REQBUFS 4), 0),
       (Call.ioctl 3 (Request.VIDIOC_QUERYBUF 0), 0),
       (Call.mmap 3 4096 0, 40960),
       (Call.ioctl 3 (Request.VIDIOC_QBUF 0), 0),
       (Call.ioctl 3 (Request.VIDIOC_QUERYBUF 1), 0),
       (Call.mmap 3 4096 4096, MAP_FAILED),
       (Call.ioctl 3 (Request.VIDIOC_QBUF 1), 0),
       (Call.ioctl 3 (Request.VIDIOC_QUERYBUF 2), 0),
       (Call.mmap 3 4096 8192, 49152),
       (Call.ioctl 3 (Request.VIDIOC_QBUF 2), 0),
       (Call.ioctl 3 Request.VIDIOC_STREAMON, 0),
       (Call.ioctl 3 Request.VIDIOC_STREAMOFF, 0),
       (Call.munmap 40960 4096, 0),
       (Call.munmap MAP_FAILED 4096, 0),
       (Call.munmap 49152 4096, 0),
       (Call.close 3, 0)] ∧
    (main (World.start mapFailureThenQueueFailureDevice)).1 = some EXIT_FAILURE ∧
    (main (World.start mapFailureThenQueueFailureDevice)).2.trace.map
        (fun e => (e.call, e.reply.ret)) =
      [(Call.openDev "/dev/video0", 3),
       (Call.ioctl 3 Request.VIDIOC_QUERYCAP, 0),
       (Call.ioctl 3 (Request.VIDIOC_S_FMT PixelFormat.V4L2_PIX_FMT_H264
          FieldOrder.V4L2_FIELD_INTERLACED 320 240), 0),
       (Call.ioctl 3 (Request.VIDIOC_REQBUFS 4), 0),
       (Call.ioctl 3 (Request.VIDIOC_QUERYBUF 0), 0),
       (Call.mmap 3 4096 0, 40960),
       (Call.ioctl 3 (Request.VIDIOC_QBUF 0), 0),
       (Call.ioctl 3 (Request.VIDIOC_QUERYBUF 1), 0),
       (Call.mmap 3 4096 4096, MAP_FAILED),
       (Call.ioctl 3 (Request.VIDIOC_QBUF 1), 0),
       (Call.ioctl 3 (Request.VIDIOC_QUERYBUF 2), 0),
       (Call.mmap 3 4096 8192, 49152),
       (Call.ioctl 3 (Request.VIDIOC_QBUF 2), -1)] := by
  decide

/-- C5 (counterexample): `VIDIOC_STREAMOFF` fails in `streamOffFailureWorld`, where two
buffers are mapped.  `shutdownDevice` returns -1 having issued that one call: no
`munmap` and no `close` is attempted, and the three responses the device still
had are left unused. -/
theorem C5_stream_off_failure_counterexample :
    (shutdownDevice 3 streamOffFailureWorld).1 = some (-1) ∧
    (shutdownDevice 3 streamOffFailureWorld).2.trace.map Event.call =
      [Call.ioctl 3 Request.VIDIOC_STREAMOFF] ∧
    (shutdownDevice 3 streamOffFailureWorld).2.script = [Reply.ok, Reply.ok, Reply.ok] := by
  decide

/-- C6 (counterexample): the device of `rejectFormatDevice` rejects `"h264"` at
320 x 240.  `main` returns `EXIT_FAILURE` after `open`, the capability query and the
rejected `VIDIOC_S_FMT`: the descriptor 3 is never closed. -/
theorem C6_rejected_format_counterexample :
    (main (World.start rejectFormatDevice)).1 = some EXIT_FAILURE ∧
    (main (World.start rejectFormatDevice)).2.trace.map (fun e => (e.call, e.reply.ret)) =
      [(Call.openDev "/dev/video0", 3),
       (Call.ioctl 3 Request.VIDIOC_QUERYCAP, 0),
       (Call.ioctl 3 (Request.VIDIOC_S_FMT PixelFormat.V4L2_PIX_FMT_H264
          FieldOrder.V4L2_FIELD_INTERLACED 320 240), -1)] ∧
    (main (World.start rejectFormatDevice)).2.trace.all
        (fun e => e.call ≠ Call.close 3) = true := by
  decide

end CameraCapture
